import Mathlib

/-!
Verification of the surface-reconciliation and commit pipeline of
`src/xwayland_xdg_shell/compositor.rs` (wprs).

The Rust code is shallowly embedded: the compositor state that the file
mutates through `&mut WprsState` becomes an explicit `WprsState` record that
every operation threads; `Result`-valued steps return a `COutcome`; panics
(`unwrap`, `assert!`, `unreachable!`) are the distinguished outcome
`COutcome.panic`; externally visible actions (frame callbacks, cursor
changes, global registration, protocol commits) are recorded as an event
list.  Functions keep the names of their Rust counterparts.
-/

namespace Wprs

/-- 2-d integer point (crate::serialization::geometry::Point of i32). -/
structure Point where
  x : Int
  y : Int
deriving DecidableEq, Repr

/-- The fields of `Role::XdgToplevel` that compositor.rs reads: the local
toplevel `Window` handle and the xdg_surface handle (both modelled as opaque
numeric handles), the decoration frame offset, whether the toplevel received
its initial configure, and whether its window frame is dirty. -/
structure XdgToplevelRole where
  local_window : Nat
  xdg_surface : Nat
  frame_offset : Point
  configured : Bool
  frame_dirty : Bool
deriving DecidableEq, Repr

/-- The field of `Role::XdgPopup` that compositor.rs reads: the xdg_surface
handle. -/
structure XdgPopupRole where
  xdg_surface : Nat
deriving DecidableEq, Repr

/-- crate::xwayland_xdg_shell::client::Role, as used by compositor.rs. -/
inductive Role where
  | XdgToplevel (t : XdgToplevelRole)
  | XdgPopup (p : XdgPopupRole)
  | Cursor
deriving DecidableEq, Repr

/-- An X11 window (smithay X11Surface), with the accessors compositor.rs
calls: `window_id()`, `wl_surface()` (the id of the wayland surface backing
it, if any), `is_transient_for()` (the parent window id, if any) and
`geometry().loc`. -/
structure X11Surface where
  window_id : Nat
  wl_surface : Option Nat
  transient_for : Option Nat
  geo_loc : Point
deriving DecidableEq, Repr

/-- Decoded buffer contents (pixel format plus pixel data). -/
structure BufferContents where
  format : Nat
  data : List Nat
deriving DecidableEq, Repr

/-- A client buffer as seen by `with_buffer_contents`: `valid` says whether
decoding (format + pixel data extraction) succeeds. -/
structure WlBuffer where
  valid : Bool
  contents : BufferContents
deriving DecidableEq, Repr

/-- smithay `BufferAssignment`: the buffer state carried by one commit. -/
inductive BufferAssignment where
  | NewBuffer (b : WlBuffer)
  | Removed
deriving DecidableEq, Repr

/-- A surface-registry entry (crate::xwayland_xdg_shell::XWaylandSurface),
with the fields compositor.rs reads and writes: the paired X11 window, the
role, the attached buffer, and the set of child surface ids. -/
structure XWaylandSurface where
  x11_surface : Option X11Surface
  role : Option Role
  buffer : Option BufferContents
  children : List Nat
deriving DecidableEq, Repr

/-- Modelled from the spec: `XWaylandSurface::new` lives outside src/.  Per
spec section 4.1 the registry creates entries with role Unassigned (no role),
no buffer, no children, and no paired window; the fallible wayland object
creation is elided as succeeding. -/
def XWaylandSurface.new : XWaylandSurface :=
  { x11_surface := none, role := none, buffer := none, children := [] }

/-- An output mode (smithay `Mode`): dimensions plus refresh rate. -/
structure Mode where
  w : Int
  h : Int
  refresh : Int
deriving DecidableEq, Repr

/-- Modelled external collaborator: the state of a smithay `Output` that
`handle_output` manipulates: the advertised mode list, the current and
preferred marks, transform, integer scale and logical position, plus the
physical properties fixed at creation. -/
structure OutputEntry where
  name : String
  physical_w : Int
  physical_h : Int
  subpixel : Nat
  make : String
  model : String
  modes : List Mode
  current_mode : Option Mode
  preferred_mode : Option Mode
  transform : Nat
  scale : Int
  location : Point
deriving DecidableEq, Repr

/-- Modelled external collaborator (smithay `Output::delete_mode`): removes
the mode from the advertised mode list; a current or preferred mark equal to
the deleted mode is dropped with it. -/
def OutputEntry.delete_mode (o : OutputEntry) (m : Mode) : OutputEntry :=
  { o with
      modes := o.modes.filter (fun m2 => m2 ≠ m),
      current_mode := if o.current_mode = some m then none else o.current_mode,
      preferred_mode := if o.preferred_mode = some m then none else o.preferred_mode }

/-- Modelled external collaborator (smithay `Output::change_current_state`,
with all four arguments supplied, as compositor.rs always does): the mode is
added to the mode list if absent and becomes current; transform, scale and
location are updated. -/
def OutputEntry.change_current_state (o : OutputEntry) (m : Mode)
    (transform : Nat) (scale : Int) (location : Point) : OutputEntry :=
  { o with
      modes := if m ∈ o.modes then o.modes else o.modes ++ [m],
      current_mode := some m,
      transform := transform, scale := scale, location := location }

/-- Modelled external collaborator (smithay `Output::set_preferred`): the
mode is marked preferred (and added to the mode list if absent). -/
def OutputEntry.set_preferred (o : OutputEntry) (m : Mode) : OutputEntry :=
  { o with
      preferred_mode := some m,
      modes := if m ∈ o.modes then o.modes else o.modes ++ [m] }

/-- The mode part of an output descriptor
(crate::serialization::wayland::OutputInfo), as read by `handle_output`. -/
structure ModeInfo where
  dim_w : Int
  dim_h : Int
  refresh_rate : Int
  preferred : Bool
deriving DecidableEq, Repr

/-- An output descriptor (crate::serialization::wayland::OutputInfo), with
the fields `handle_output` reads. -/
structure OutputInfo where
  id : Nat
  name : Option String
  physical_w : Int
  physical_h : Int
  subpixel : Nat
  make : String
  model : String
  mode : ModeInfo
  transform : Nat
  scale_factor : Int
  location : Point
deriving DecidableEq, Repr

/-- Externally visible actions performed by the embedded functions. -/
inductive Event where
  | frame (sid : Nat)
  | commitSurface (sid : Nat)
  | attachNone (sid : Nat)
  | drawWindowFrame (sid : Nat)
  | sendFrames (sid : Nat) (elapsed : Nat) (extraDelay : Nat)
  | setCursor (serial : Nat) (sid : Nat) (hx : Int) (hy : Int)
  | hideCursor
  | setNamedCursor (name : String)
  | createGlobal (outputId : Nat)
deriving DecidableEq, Repr

/-- Outcome of a fallible operation: `ok`, a recoverable logged `Result`
error (`err`), or a process abort (`panic`, from unwrap, assert or
unreachable). -/
inductive COutcome where
  | ok
  | err
  | panic
deriving DecidableEq, Repr

/-- The compositor state threaded through every handler: the surface
registry (`state.surfaces`, keyed by wayland surface id), the unpaired x11
surface list (`WprsCompositorState.x11_surfaces`), the output map
(`WprsCompositorState.outputs`), the pixel pool handle, the last
pointer-enter serial, the cursor hotspot metadata recorded per surface by
the generic commit machinery, the event-loop idle queue and registered
pairing commit-hooks, and the elapsed process time. -/
structure WprsState where
  surfaces : List (Nat × XWaylandSurface)
  x11_surfaces : List X11Surface
  outputs : List (Nat × OutputEntry)
  pool : Option Unit
  last_enter_serial : Nat
  hotspots : List (Nat × Point)
  idle_queue : List Nat
  commit_hooks : List Nat
  elapsed : Nat
deriving DecidableEq, Repr

/-- Association-list lookup by key, mirroring HashMap::get. -/
def findA {α : Type} (l : List (Nat × α)) (k : Nat) : Option α :=
  (l.find? (fun p => p.1 == k)).map (fun p => p.2)

/-- Association-list in-place update of an existing key, mirroring mutation
through a HashMap entry reference. -/
def setA {α : Type} (l : List (Nat × α)) (k : Nat) (v : α) : List (Nat × α) :=
  l.map (fun p => if p.1 = k then (k, v) else p)

/-- Number of entries with the given key. -/
def countA {α : Type} (l : List (Nat × α)) (k : Nat) : Nat :=
  (l.filter (fun p => p.1 == k)).length

/-- Vec::swap_remove: replace the element at `i` with the last element and
pop.  Total; call sites always have `i` in bounds. -/
def swapRemove {α : Type} (l : List α) (i : Nat) : List α :=
  match l.get? (l.length - 1) with
  | none => l
  | some last => (l.set i last).dropLast

/-- Result of an operation that can abort the process but not return a
recoverable error. -/
inductive PResult (α : Type) where
  | ok (a : α)
  | panic
deriving DecidableEq, Repr

/-- The parent information produced for popup anchoring (struct
X11ParentForPopup, lines 293-298). -/
structure X11ParentForPopup where
  surface_id : Nat
  xdg_surface : Nat
  offset : Point
deriving DecidableEq, Repr

/-- The result of parent resolution (struct X11Parent, lines 300-305). -/
structure X11Parent where
  surface_id : Nat
  for_toplevel : Option Nat
  for_popup : X11ParentForPopup
deriving DecidableEq, Repr

/-- Lines 313-321: iterate the surface registry looking for the entry whose
paired x11 window has the given window id. -/
def findParentEntry (st : WprsState) (parent_id : Nat) :
    Option (Nat × XWaylandSurface) :=
  st.surfaces.find? (fun p =>
    match p.2.x11_surface with
    | some s => s.window_id == parent_id
    | none => false)

/-- fn find_x11_parent, lines 307-363.  `.panic` models the `unwrap` on the
registry search (line 321) and the two `unreachable!` arms (lines 351-355);
the `get_x11_surface` error branch (lines 323-326) logs and returns no
parent. -/
def find_x11_parent (st : WprsState) (x11_surface : Option X11Surface) :
    PResult (Option X11Parent) :=
  match x11_surface with
  | none => .ok none
  | some xs =>
    match xs.transient_for with
    | none => .ok none
    | some parent_id =>
      match findParentEntry st parent_id with
      | none => .panic
      | some (pid, parent) =>
        match parent.x11_surface with
        | none => .ok none
        | some pxs =>
          match parent.role with
          | some (Role.XdgToplevel t) =>
            .ok (some
              { surface_id := pid,
                for_toplevel := some t.local_window,
                for_popup :=
                  { surface_id := pid,
                    xdg_surface := t.xdg_surface,
                    offset :=
                      { x := -pxs.geo_loc.x + t.frame_offset.x,
                        y := -pxs.geo_loc.y + t.frame_offset.y } } })
          | some (Role.XdgPopup p) =>
            .ok (some
              { surface_id := pid,
                for_toplevel := none,
                for_popup :=
                  { surface_id := pid,
                    xdg_surface := p.xdg_surface,
                    offset := { x := -pxs.geo_loc.x, y := -pxs.geo_loc.y } } })
          | some Role.Cursor => .panic
          | none => .panic

/-- smithay `Output::new` defaults, as a fresh entry for the or_insert
branch of `handle_output` (lines 554-567): the name is formatted as
`id_name`, modes empty, no current or preferred mark, identity transform,
scale 1, position origin. -/
def OutputEntry.new (id : Nat) (info : OutputInfo) : OutputEntry :=
  { name := toString id ++ "_" ++ info.name.getD "None",
    physical_w := info.physical_w,
    physical_h := info.physical_h,
    subpixel := info.subpixel,
    make := info.make,
    model := info.model,
    modes := [],
    current_mode := none,
    preferred_mode := none,
    transform := 0,
    scale := 1,
    location := { x := 0, y := 0 } }

/-- The mode a descriptor asks for (lines 573-576). -/
def receivedMode (info : OutputInfo) : Mode :=
  { w := info.mode.dim_w, h := info.mode.dim_h, refresh := info.mode.refresh_rate }

/-- Lines 569-590 of handle_output, the in-place update of the (found or
freshly inserted) output entry: if the descriptor's mode differs from the
current mode (defaulted to the zero mode, line 569-572), the old mode is
deleted first; then mode, transform, scale and location are applied; finally
the mode is marked preferred if the descriptor flags it. -/
def updatedEntry (entry0 : OutputEntry) (info : OutputInfo) : OutputEntry :=
  let current_mode := entry0.current_mode.getD { w := 0, h := 0, refresh := 0 }
  let received_mode := receivedMode info
  let entry1 := if current_mode ≠ received_mode
    then entry0.delete_mode current_mode else entry0
  let entry2 := entry1.change_current_state received_mode
    info.transform info.scale_factor info.location
  if info.mode.preferred then entry2.set_preferred received_mode else entry2

/-- fn handle_output, lines 549-591.  On first sight of the id the entry is
created (`Output::new`, lines 556-564) and registered as a global exactly
once (line 565, recorded as a `createGlobal` event); in both cases the entry
is then updated in place per `updatedEntry`. -/
def handle_output (st : WprsState) (info : OutputInfo) :
    WprsState × List Event :=
  match findA st.outputs info.id with
  | some o =>
    ({ st with outputs := setA st.outputs info.id (updatedEntry o info) }, [])
  | none =>
    let o := OutputEntry.new info.id info
    ({ st with
         outputs := setA (st.outputs ++ [(info.id, o)]) info.id
           (updatedEntry o info) },
     [Event.createGlobal info.id])

/-- Lines 371-377 of commit_inner: find the first unpaired x11 surface whose
underlying wl surface is this surface and swap_remove it from the unpaired
list, yielding the claimed window (if any) and the updated state. -/
def claimX11 (st : WprsState) (sid : Nat) : Option X11Surface × WprsState :=
  match st.x11_surfaces.findIdx? (fun x11s => x11s.wl_surface == some sid) with
  | none => (none, st)
  | some p =>
    (st.x11_surfaces.get? p,
     { st with x11_surfaces := swapRemove st.x11_surfaces p })

/-- Set-insert into a child-id set (HashSet::insert). -/
def insertChild (sid : Nat) (cs : List Nat) : List Nat :=
  if sid ∈ cs then cs else cs ++ [sid]

/-- Lines 382-396 of commit_inner: when a parent was resolved for a freshly
claimed x11 window, assert the surface is not its own parent (`.panic` on
the `assert!` at lines 390-393), then insert this surface's id into the
parent entry's child set (`.panic` also models the `unwrap` on the parent
lookup at line 394). -/
def registerChild (sid : Nat) (parent : Option X11Parent)
    (x11_surface : Option X11Surface) (st : WprsState) : PResult WprsState :=
  match parent with
  | none => .ok st
  | some p =>
    match x11_surface with
    | none => .ok st
    | some _ =>
      if sid = p.surface_id then .panic
      else
        match findA st.surfaces p.surface_id with
        | none => .panic
        | some pe =>
          .ok { st with
                  surfaces := setA st.surfaces p.surface_id
                    { pe with children := insertChild sid pe.children } }

/-- Lines 398-409 of commit_inner: `entry(..).or_insert_with_result`, the
registry's get-or-create. -/
def getOrCreateSurface (st : WprsState) (sid : Nat) :
    XWaylandSurface × WprsState :=
  match findA st.surfaces sid with
  | some e => (e, st)
  | none =>
    (XWaylandSurface.new,
     { st with surfaces := st.surfaces ++ [(sid, XWaylandSurface.new)] })

/-- Modelled from the spec: `XWaylandSurface::update_x11_surface` lives
outside src/.  Per spec section 4.3 step 2 the freshly claimed X11 window is
associated with this surface's entry; local window/role construction details
are elided and the fallible parts are elided as succeeding. -/
def XWaylandSurface.update_x11_surface (e : XWaylandSurface)
    (xs : X11Surface) : XWaylandSurface :=
  { e with x11_surface := some xs }

/-- Result of an operation that can return a recoverable error. -/
inductive RResult (α : Type) where
  | ok (a : α)
  | err
deriving DecidableEq, Repr

/-- Lines 426-444 of commit_inner: buffer handling.  A new buffer is decoded
(`with_buffer_contents`; `.err` if decoding fails) and installed through the
pixel pool (`.err` if the pool is absent, the `pool.as_mut()` failure;
`update_buffer` itself lives outside src/ and is modelled from spec section
4.3 step 5 as storing the decoded buffer).  A removal clears the stored
buffer and explicitly attaches an empty buffer at the origin.  No assignment
means no buffer work. -/
def applyBuffer (sid : Nat) (buf : Option BufferAssignment)
    (e : XWaylandSurface) (pool : Option Unit) :
    RResult (XWaylandSurface × List Event) :=
  match buf with
  | some (BufferAssignment.NewBuffer b) =>
    if b.valid then
      match pool with
      | some _ => .ok ({ e with buffer := some b.contents }, [])
      | none => .err
    else .err
  | some BufferAssignment.Removed =>
    .ok ({ e with buffer := none }, [Event.attachNone sid])
  | none => .ok (e, [])

/-- Lines 446-450 of commit_inner: a configured toplevel with a dirty window
frame gets its frame redrawn. -/
def decorationEvents (sid : Nat) (e : XWaylandSurface) : List Event :=
  match e.role with
  | some (Role.XdgToplevel t) =>
    if t.configured && t.frame_dirty then [Event.drawWindowFrame sid] else []
  | _ => []

/-- The registry entry as it stands after the get-or-create and
`update_x11_surface` steps (lines 398-424) of commit_inner. -/
def commitEntry1 (sid : Nat) (x11_surface : Option X11Surface)
    (st : WprsState) : XWaylandSurface :=
  match x11_surface with
  | some xs => (getOrCreateSurface st sid).1.update_x11_surface xs
  | none => (getOrCreateSurface st sid).1

/-- The state after the get-or-create and `update_x11_surface` steps (lines
398-424) of commit_inner: the entry for this surface reflects
`commitEntry1`. -/
def commitStateA (sid : Nat) (x11_surface : Option X11Surface)
    (st : WprsState) : WprsState :=
  { (getOrCreateSurface st sid).2 with
      surfaces := setA (getOrCreateSurface st sid).2.surfaces sid
        (commitEntry1 sid x11_surface st) }

/-- Lines 398-466 of commit_inner, after parent registration: get-or-create
the registry entry, associate a freshly claimed x11 window with it, do
buffer handling (propagating its recoverable error), decoration redraw,
request the next frame and forward the commit, and finally synthesize an
immediate frame-completion callback (elapsed process time, zero extra
delay) exactly if the surface is unpaired or a cursor (lines 455-465). -/
def commitRest (sid : Nat) (buf : Option BufferAssignment)
    (x11_surface : Option X11Surface) (st : WprsState) :
    COutcome × WprsState × List Event :=
  let e1 := commitEntry1 sid x11_surface st
  let stA := commitStateA sid x11_surface st
  match applyBuffer sid buf e1 stA.pool with
  | .err => (COutcome.err, stA, [])
  | .ok (e2, evs2) =>
    let stB := { stA with surfaces := setA stA.surfaces sid e2 }
    let evs3 := evs2 ++ decorationEvents sid e2
      ++ [Event.frame sid, Event.commitSurface sid]
    if e2.x11_surface = none ∨ e2.role = some Role.Cursor then
      (COutcome.ok, stB, evs3 ++ [Event.sendFrames sid st.elapsed 0])
    else
      (COutcome.ok, stB, evs3)

/-- fn commit_inner, lines 365-467: claim a matching unpaired x11 window,
resolve its parent, register the child link, then run the rest of the
commit. -/
def commit_inner (sid : Nat) (buf : Option BufferAssignment)
    (st : WprsState) : COutcome × WprsState × List Event :=
  let r := claimX11 st sid
  match find_x11_parent r.2 r.1 with
  | .panic => (COutcome.panic, r.2, [])
  | .ok parent =>
    match registerChild sid parent r.1 r.2 with
    | .panic => (COutcome.panic, r.2, [])
    | .ok st2 => commitRest sid buf r.1 st2

/-- fn commit, lines 282-291: runs commit_inner under `with_states` and then
the external `on_commit_buffer_handler` (no modelled effect). -/
def commit (sid : Nat) (buf : Option BufferAssignment) (st : WprsState) :
    COutcome × WprsState × List Event :=
  commit_inner sid buf st

/-- Lines 241-253: is the surface paired with an x11 window, or a
cursor-role surface?  Mirrors the `matches!` test and the `map_or` on
`x11_surface.is_some()`. -/
def pairedOrCursor (st : WprsState) (sid : Nat) : Bool :=
  match findA st.surfaces sid with
  | some e =>
    e.x11_surface.isSome
      || (match e.role with
          | some Role.Cursor => true
          | _ => false)
  | none => false

/-- fn execute_or_defer_commit, lines 238-262: run the commit (propagating
its error); if the surface is now neither paired nor a cursor, register the
pairing commit-hook (`X11Wm::commit_hook`) and re-enqueue this same
operation on the event loop's idle queue, then return ok. -/
def execute_or_defer_commit (sid : Nat) (buf : Option BufferAssignment)
    (st : WprsState) : COutcome × WprsState × List Event :=
  match commit sid buf st with
  | (COutcome.ok, st1, evs) =>
    if pairedOrCursor st1 sid then (COutcome.ok, st1, evs)
    else
      (COutcome.ok,
       { st1 with
           commit_hooks := st1.commit_hooks ++ [sid],
           idle_queue := st1.idle_queue ++ [sid] },
       evs)
  | r => r

/-- smithay `CursorImageStatus`, with a surface-backed status carrying the
surface id. -/
inductive CursorImageStatus where
  | Hidden
  | Surface (sid : Nat)
  | Named (name : String)
deriving DecidableEq, Repr

/-- fn cursor_image (SeatHandler), lines 484-542.  The seat pointer objects
(lines 487-495) are assumed present, so their unwraps are elided.  Hidden
hides the pointer
(failure logged and ignored); a surface-backed status reads the hotspot
recorded on that surface (`.panic` models the `unwrap` on the
CursorImageSurfaceData lookup), get-or-creates the registry entry, forces
its role to Cursor, and sets the pointer image to that surface at the
hotspot with the last recorded enter serial; a named status resolves the
name against the cursor theme (failure logged and ignored). -/
def cursor_image (st : WprsState) (image : CursorImageStatus) :
    COutcome × WprsState × List Event :=
  match image with
  | CursorImageStatus.Hidden => (COutcome.ok, st, [Event.hideCursor])
  | CursorImageStatus.Surface sid =>
    match findA st.hotspots sid with
    | none => (COutcome.panic, st, [])
    | some hotspot =>
      let r := getOrCreateSurface st sid
      let e := { r.1 with role := some Role.Cursor }
      let st2 := { r.2 with surfaces := setA r.2.surfaces sid e }
      (COutcome.ok, st2,
       [Event.setCursor st.last_enter_serial sid hotspot.x hotspot.y])
  | CursorImageStatus.Named n => (COutcome.ok, st, [Event.setNamedCursor n])

/-- The x11 window ids currently paired to some registry entry. -/
def pairedWindows (st : WprsState) : List Nat :=
  st.surfaces.filterMap (fun p => p.2.x11_surface.map X11Surface.window_id)

/-- The x11 window ids currently in the unpaired set. -/
def unpairedWindows (st : WprsState) : List Nat :=
  st.x11_surfaces.map X11Surface.window_id

/-- The pairing well-formedness invariant: registry keys are unique, each
x11 window id is paired to at most one surface entry, the unpaired window
ids are distinct, and no window is simultaneously paired and unpaired. -/
def WF (st : WprsState) : Prop :=
  (st.surfaces.map Prod.fst).Nodup
    ∧ (pairedWindows st).Nodup
    ∧ (unpairedWindows st).Nodup
    ∧ ∀ w ∈ unpairedWindows st, w ∉ pairedWindows st

instance (st : WprsState) : Decidable (WF st) := by
  unfold WF
  infer_instance

/-- A compositor state with nothing in it, used to build concrete witness
states. -/
def emptyState : WprsState :=
  { surfaces := [], x11_surfaces := [], outputs := [], pool := none,
    last_enter_serial := 0, hotspots := [], idle_queue := [],
    commit_hooks := [], elapsed := 0 }

/-- The parent X11 window used by the C3 witness. -/
def pwC3 : X11Surface :=
  { window_id := 5, wl_surface := some 2, transient_for := none,
    geo_loc := { x := 10, y := 20 } }

/-- The parent toplevel role used by the C3 witness. -/
def tC3 : XdgToplevelRole :=
  { local_window := 7, xdg_surface := 8, frame_offset := { x := 1, y := 2 },
    configured := true, frame_dirty := false }

/-- The parent registry entry used by the C3 witness. -/
def peC3 : XWaylandSurface :=
  { x11_surface := some pwC3, role := some (Role.XdgToplevel tC3),
    buffer := none, children := [] }

/-- The state used by the C3 witness: surface 2 is paired with parent
window 5 and has the toplevel role. -/
def stC3 : WprsState := { emptyState with surfaces := [(2, peC3)] }

/-- The child X11 window used by the C3 witness: transient for window 5. -/
def xsC3 : X11Surface :=
  { window_id := 6, wl_surface := some 1, transient_for := some 5,
    geo_loc := { x := 0, y := 0 } }

/-- Output descriptor for output 1, mode 800x600 at 60, flagged preferred. -/
def dC7 : OutputInfo :=
  { id := 1, name := some "out", physical_w := 100, physical_h := 60,
    subpixel := 0, make := "mk", model := "md",
    mode := { dim_w := 800, dim_h := 600, refresh_rate := 60, preferred := true },
    transform := 0, scale_factor := 1, location := { x := 0, y := 0 } }

/-- The same descriptor with the same mode but preferred = false. -/
def dC7unpref : OutputInfo :=
  { dC7 with
      mode := { dim_w := 800, dim_h := 600, refresh_rate := 60,
                preferred := false } }

/-- A descriptor for output 1 with a different mode, not preferred. -/
def dC7diff : OutputInfo :=
  { dC7 with
      mode := { dim_w := 1920, dim_h := 1080, refresh_rate := 60,
                preferred := false } }

/-- The unpaired X11 window used by the C2 scenarios: window 10 backed by
wayland surface 1. -/
def wC2 : X11Surface :=
  { window_id := 10, wl_surface := some 1, transient_for := none,
    geo_loc := { x := 0, y := 0 } }

/-- A valid new-buffer assignment used by the C2 scenarios. -/
def bufC2 : Option BufferAssignment :=
  some (BufferAssignment.NewBuffer
    { valid := true, contents := { format := 0, data := [1] } })

/-- The C2 counterexample state: window 10 unpaired, no pixel pool. -/
def stC2 : WprsState := { emptyState with x11_surfaces := [wC2] }

/-- The C9 witness state: hotspot (2,4) recorded for surface 3, enter
serial 42. -/
def stC9 : WprsState :=
  { emptyState with
      last_enter_serial := 42,
      hotspots := [(3, { x := 2, y := 4 })] }

/-- The child X11 window used by the C5 witnesses: window 6, backing
wayland surface 1, transient for window 5. -/
def wC5 : X11Surface :=
  { window_id := 6, wl_surface := some 1, transient_for := some 5,
    geo_loc := { x := 0, y := 0 } }

/-- The C5 witness state: surface 2 is the paired toplevel parent (window
5) and window 6 is unpaired, waiting for surface 1's commit. -/
def stC5 : WprsState :=
  { emptyState with surfaces := [(2, peC3)], x11_surfaces := [wC5] }

/-- The C5 self-parent state: the parent entry sits at surface 1 itself,
so surface 1's commit resolves itself as parent. -/
def stC5self : WprsState :=
  { emptyState with surfaces := [(1, peC3)], x11_surfaces := [wC5] }

section ListLemmas

variable {α β : Type}

theorem set_getElem_self (l : List α) (i : Nat) (h : i < l.length) :
    l.set i l[i] = l := by
  rw [List.set_eq_take_cons_drop _ h, List.getElem_cons_drop _ _ h,
    List.take_append_drop]

theorem swapRemove_perm (l : List α) (i : Nat) (h : i < l.length) :
    List.Perm (swapRemove l i) (l.eraseIdx i) := by
  have hpos : 0 < l.length := Nat.lt_of_le_of_lt (Nat.zero_le i) h
  have hlast : l.length - 1 < l.length := by omega
  unfold swapRemove
  rw [List.get?_eq_getElem?, List.getElem?_eq_getElem hlast]
  change ((l.set i l[l.length - 1]).dropLast).Perm (l.eraseIdx i)
  by_cases hi : i + 1 = l.length
  · have hidx : l.length - 1 = i := by omega
    rw [show l[l.length - 1] = l[i] from by simp only [hidx],
      set_getElem_self l i h, List.dropLast_eq_eraseIdx hi]
  · have hlt : i + 1 < l.length := by omega
    have hdne : l.drop (i + 1) ≠ [] := by
      intro hdnil
      have := List.length_drop (i + 1) l
      rw [hdnil] at this
      simp at this
      omega
    rw [List.set_eq_take_cons_drop _ h, List.dropLast_append_cons,
      List.eraseIdx_eq_take_drop_succ]
    refine List.Perm.append_left _ ?_
    have hgl : (l.drop (i + 1)).getLast hdne = l[l.length - 1] := by
      rw [List.getLast_eq_getElem]
      rw [List.getElem_drop]
      congr 1
      have := List.length_drop (i + 1) l
      omega
    have h1 : (l[l.length - 1] :: l.drop (i + 1)).dropLast
        = l[l.length - 1] :: (l.drop (i + 1)).dropLast := by
      rw [show l[l.length - 1] :: l.drop (i + 1)
          = [l[l.length - 1]] ++ l.drop (i + 1) from rfl,
        List.dropLast_append_of_ne_nil _ hdne]
      rfl
    rw [h1]
    have h2 : List.Perm (l[l.length - 1] :: (l.drop (i + 1)).dropLast)
        ((l.drop (i + 1)).dropLast ++ [l[l.length - 1]]) :=
      (List.perm_append_singleton _ _).symm
    have h3 : (l.drop (i + 1)).dropLast ++ [l[l.length - 1]] = l.drop (i + 1) := by
      conv_rhs => rw [← List.dropLast_concat_getLast hdne]
      rw [hgl]
    conv_rhs => rw [← h3]
    exact h2

theorem swapRemove_map_perm (f : α → β) (l : List α) (i : Nat)
    (h : i < l.length) :
    List.Perm ((swapRemove l i).map f) ((l.eraseIdx i).map f) :=
  (swapRemove_perm l i h).map f

theorem mem_of_mem_swapRemove {l : List α} {i : Nat} {a : α}
    (h : i < l.length) (ha : a ∈ swapRemove l i) : a ∈ l :=
  List.mem_of_mem_eraseIdx ((swapRemove_perm l i h).mem_iff.mp ha)

theorem nodup_map_swapRemove (f : α → β) {l : List α} {i : Nat}
    (h : i < l.length) (hn : (l.map f).Nodup) :
    ((swapRemove l i).map f).Nodup := by
  have hsub : List.Sublist ((l.eraseIdx i).map f) (l.map f) :=
    List.Sublist.map f (List.eraseIdx_sublist l i)
  exact ((swapRemove_map_perm f l i h).symm).nodup (hsub.nodup hn)

theorem decomp_at (l : List α) (i : Nat) (h : i < l.length) :
    l = l.take i ++ l[i] :: l.drop (i + 1) := by
  rw [List.getElem_cons_drop _ _ h, List.take_append_drop]

theorem map_getElem_not_mem_map_swapRemove (f : α → β) {l : List α} {i : Nat}
    (h : i < l.length) (hn : (l.map f).Nodup) :
    f l[i] ∉ (swapRemove l i).map f := by
  intro hmem
  have hmem2 : f l[i] ∈ (l.eraseIdx i).map f :=
    ((swapRemove_map_perm f l i h).mem_iff).mp hmem
  rw [List.eraseIdx_eq_take_drop_succ, List.map_append] at hmem2
  have hdecomp := decomp_at l i h
  rw [hdecomp] at hn
  rw [List.map_append, List.map_cons] at hn
  rcases List.nodup_append.mp hn with ⟨_, hn2, hdisj⟩
  rcases List.mem_append.mp hmem2 with hmem3 | hmem3
  · exact hdisj hmem3 (List.mem_cons_self _ _)
  · exact (List.nodup_cons.mp hn2).1 hmem3

theorem findA_eq_none_iff {l : List (Nat × α)} {k : Nat} :
    findA l k = none ↔ ∀ p ∈ l, p.1 ≠ k := by
  unfold findA
  rw [Option.map_eq_none', List.find?_eq_none]
  constructor
  · intro hall p hp
    have := hall p hp
    simpa using this
  · intro hall p hp
    simpa using hall p hp

theorem findA_cons {l : List (Nat × α)} {k : Nat} {p : Nat × α} :
    findA (p :: l) k = if p.1 = k then some p.2 else findA l k := by
  unfold findA
  by_cases h : p.1 = k
  · simp [List.find?_cons, h]
  · simp [List.find?_cons, h]

theorem findA_append (l1 l2 : List (Nat × α)) (k : Nat) :
    findA (l1 ++ l2) k =
      match findA l1 k with
      | some v => some v
      | none => findA l2 k := by
  induction l1 with
  | nil => simp [findA]
  | cons p t ih =>
    rw [List.cons_append, findA_cons, findA_cons]
    by_cases h : p.1 = k
    · simp [h]
    · simp only [if_neg h]
      exact ih

theorem findA_of_not_mem_keys {l : List (Nat × α)} {k : Nat}
    (h : k ∉ l.map Prod.fst) : findA l k = none := by
  rw [findA_eq_none_iff]
  intro p hp hpk
  exact h (hpk ▸ List.mem_map_of_mem Prod.fst hp)

theorem keys_setA (l : List (Nat × α)) (k : Nat) (v : α) :
    (setA l k v).map Prod.fst = l.map Prod.fst := by
  unfold setA
  rw [List.map_map]
  apply List.map_congr_left
  intro p _
  by_cases h : p.1 = k
  · simp [h]
  · simp [h]

theorem setA_cons (p : Nat × α) (t : List (Nat × α)) (k : Nat) (v : α) :
    setA (p :: t) k v = (if p.1 = k then (k, v) else p) :: setA t k v := rfl

theorem findA_pair_cons (a : Nat) (b : α) (t : List (Nat × α)) (k : Nat) :
    findA ((a, b) :: t) k = if a = k then some b else findA t k :=
  findA_cons

theorem setA_of_not_mem_keys {l : List (Nat × α)} {k : Nat} (v : α)
    (h : k ∉ l.map Prod.fst) : setA l k v = l := by
  induction l with
  | nil => rfl
  | cons p t ih =>
    rw [List.map_cons, List.mem_cons] at h
    push_neg at h
    rw [setA_cons, if_neg (fun hpk => h.1 hpk.symm), ih h.2]

theorem setA_append (l1 l2 : List (Nat × α)) (k : Nat) (v : α) :
    setA (l1 ++ l2) k v = setA l1 k v ++ setA l2 k v :=
  List.map_append _ _ _

theorem findA_setA_self {l : List (Nat × α)} {k : Nat} {e : α} (v : α)
    (h : findA l k = some e) : findA (setA l k v) k = some v := by
  induction l with
  | nil => simp [findA] at h
  | cons p t ih =>
    rw [findA_cons] at h
    rw [setA_cons]
    by_cases hpk : p.1 = k
    · rw [if_pos hpk, findA_cons]
      simp
    · rw [if_neg hpk, findA_cons, if_neg hpk]
      rw [if_neg hpk] at h
      exact ih h

theorem findA_setA_ne {l : List (Nat × α)} {k k2 : Nat} (v : α)
    (h : k2 ≠ k) : findA (setA l k v) k2 = findA l k2 := by
  induction l with
  | nil => rfl
  | cons p t ih =>
    rw [setA_cons]
    by_cases hpk : p.1 = k
    · rw [if_pos hpk, findA_pair_cons, findA_cons,
        if_neg (show ¬k = k2 from fun hk2 => h hk2.symm),
        if_neg (show ¬p.1 = k2 from fun hp2 => h ((hpk ▸ hp2 : k = k2)).symm),
        ih]
    · rw [if_neg hpk, findA_cons, findA_cons]
      by_cases hp2 : p.1 = k2
      · simp only [if_pos hp2]
      · simp only [if_neg hp2]
        exact ih

theorem countA_cons (p : Nat × α) (t : List (Nat × α)) (k : Nat) :
    countA (p :: t) k = (if p.1 = k then 1 else 0) + countA t k := by
  unfold countA
  rw [List.filter_cons]
  by_cases h : p.1 = k
  · simp only [h]
    simp
    omega
  · simp [h]

theorem countA_setA (l : List (Nat × α)) (k k2 : Nat) (v : α) :
    countA (setA l k v) k2 = countA l k2 := by
  induction l with
  | nil => rfl
  | cons p t ih =>
    rw [setA_cons, countA_cons, countA_cons, ih]
    by_cases hpk : p.1 = k
    · rw [if_pos hpk, hpk]
    · rw [if_neg hpk]

theorem countA_append (l1 l2 : List (Nat × α)) (k : Nat) :
    countA (l1 ++ l2) k = countA l1 k + countA l2 k := by
  unfold countA
  rw [List.filter_append, List.length_append]

theorem countA_eq_zero {l : List (Nat × α)} {k : Nat}
    (h : findA l k = none) : countA l k = 0 := by
  rw [findA_eq_none_iff] at h
  unfold countA
  rw [List.filter_eq_nil_iff.mpr]
  · rfl
  · intro p hp
    simpa using h p hp

theorem findA_decomp {l : List (Nat × α)} {k : Nat} {e : α}
    (h : findA l k = some e) :
    ∃ l1 l2, l = l1 ++ (k, e) :: l2 ∧ ∀ p ∈ l1, p.1 ≠ k := by
  induction l with
  | nil => simp [findA] at h
  | cons p t ih =>
    rw [findA_cons] at h
    by_cases hpk : p.1 = k
    · rw [if_pos hpk] at h
      refine ⟨[], t, ?_, by simp⟩
      obtain ⟨p1, p2⟩ := p
      simp at hpk h
      simp [hpk, h]
    · rw [if_neg hpk] at h
      obtain ⟨l1, l2, heq, hl1⟩ := ih h
      refine ⟨p :: l1, l2, by rw [heq, List.cons_append], ?_⟩
      intro q hq
      rcases List.mem_cons.mp hq with hq | hq
      · exact hq ▸ hpk
      · exact hl1 q hq

end ListLemmas

/-- Claim C3: for a paired X11 window declaring a transient-for target whose
registry entry has role Toplevel, parent resolution returns the parent's
toplevel window handle and an offset equal componentwise to the negated
parent window origin plus the parent's window-frame decoration offset; for a
target entry with role Popup it returns no toplevel handle and an offset
equal to the negated parent window origin with no decoration term; and a
window declaring no transient-for target resolves to no parent. -/
theorem find_x11_parent_offsets (st : WprsState) (xs : X11Surface)
    (tgt pid : Nat) (parent : XWaylandSurface) (pxs : X11Surface)
    (htf : xs.transient_for = some tgt)
    (hfind : findParentEntry st tgt = some (pid, parent))
    (hpx : parent.x11_surface = some pxs) :
    (∀ t, parent.role = some (Role.XdgToplevel t) →
      find_x11_parent st (some xs) = PResult.ok (some
        ⟨pid, some t.local_window,
         ⟨pid, t.xdg_surface,
          ⟨-pxs.geo_loc.x + t.frame_offset.x,
           -pxs.geo_loc.y + t.frame_offset.y⟩⟩⟩))
    ∧ (∀ p, parent.role = some (Role.XdgPopup p) →
      find_x11_parent st (some xs) = PResult.ok (some
        ⟨pid, none,
         ⟨pid, p.xdg_surface, ⟨-pxs.geo_loc.x, -pxs.geo_loc.y⟩⟩⟩))
    ∧ (∀ ys : X11Surface, ys.transient_for = none →
      find_x11_parent st (some ys) = PResult.ok none) := by
  refine ⟨?_, ?_, ?_⟩
  · intro t ht
    simp only [find_x11_parent, htf, hfind, hpx, ht]
  · intro p hp
    simp only [find_x11_parent, htf, hfind, hpx, hp]
  · intro ys hys
    simp only [find_x11_parent, hys]

/-- Witness for C3 at a concrete toplevel parent: the offset is
(-10 + 1, -20 + 2). -/
theorem find_x11_parent_offsets_witness :
    find_x11_parent stC3 (some xsC3) = PResult.ok (some
      ⟨2, some 7, ⟨2, 8, ⟨-9, -18⟩⟩⟩) := by
  have h := (find_x11_parent_offsets stC3 xsC3 5 2 peC3 pwC3 (by rfl)
    (by rfl) (by rfl)).1 tC3 (by rfl)
  rw [h]
  rfl

/-- Claim C4: parent resolution requires the transient-for target to be
paired already: if the committing window declares a transient-for target
and no registry entry is paired with an X11 window of that id, the
operation panics (the unwrap at line 321) rather than returning a
result. -/
theorem find_x11_parent_unpaired_target (st : WprsState) (xs : X11Surface)
    (tgt : Nat) (htf : xs.transient_for = some tgt)
    (hnb : ∀ p ∈ st.surfaces, ∀ s, p.2.x11_surface = some s →
      s.window_id ≠ tgt) :
    find_x11_parent st (some xs) = PResult.panic := by
  have hfind : findParentEntry st tgt = none := by
    unfold findParentEntry
    rw [List.find?_eq_none]
    intro p hp
    cases hx : p.2.x11_surface with
    | none => simp [hx]
    | some s =>
      simp only [hx]
      simpa using hnb p hp s hx
  simp only [find_x11_parent, htf, hfind]

/-- Witness for C4: in a registry whose only entry is unpaired, a window
transient for window 5 makes parent resolution panic. -/
theorem find_x11_parent_unpaired_target_witness :
    find_x11_parent
      { emptyState with surfaces := [(3, XWaylandSurface.new)] }
      (some xsC3) = PResult.panic :=
  find_x11_parent_unpaired_target _ xsC3 5 (by rfl) (by decide)

theorem handle_output_fresh (st : WprsState) (info : OutputInfo)
    (h : findA st.outputs info.id = none) :
    handle_output st info =
      ({ st with
           outputs := setA (st.outputs ++ [(info.id, OutputEntry.new info.id info)])
             info.id (updatedEntry (OutputEntry.new info.id info) info) },
       [Event.createGlobal info.id]) := by
  simp only [handle_output, h]

theorem handle_output_existing (st : WprsState) (info : OutputInfo)
    (o : OutputEntry) (h : findA st.outputs info.id = some o) :
    handle_output st info =
      ({ st with outputs := setA st.outputs info.id (updatedEntry o info) },
       []) := by
  simp only [handle_output, h]

theorem findA_append_singleton_self {α : Type} (l : List (Nat × α)) (k : Nat)
    (v : α) (h : findA l k = none) : findA (l ++ [(k, v)]) k = some v := by
  rw [findA_append, h]
  show findA [(k, v)] k = some v
  rw [findA_pair_cons, if_pos rfl]

theorem updatedEntry_new (id : Nat) (info : OutputInfo) :
    (updatedEntry (OutputEntry.new id info) info).modes = [receivedMode info]
    ∧ (updatedEntry (OutputEntry.new id info) info).current_mode
        = some (receivedMode info) := by
  unfold updatedEntry OutputEntry.new OutputEntry.delete_mode
    OutputEntry.change_current_state OutputEntry.set_preferred
  split_ifs <;> simp_all

theorem updatedEntry_keep (o : OutputEntry) (info : OutputInfo)
    (hc : o.current_mode = some (receivedMode info))
    (hm : o.modes = [receivedMode info]) :
    (updatedEntry o info).modes = [receivedMode info]
    ∧ (updatedEntry o info).current_mode = some (receivedMode info) := by
  unfold updatedEntry OutputEntry.delete_mode
    OutputEntry.change_current_state OutputEntry.set_preferred
  rw [hc]
  simp only [Option.getD_some, ne_eq, not_true_eq_false, if_false, hm]
  split_ifs
  all_goals simp_all

theorem updatedEntry_diff (o : OutputEntry) (info : OutputInfo) (old : Mode)
    (hc : o.current_mode = some old) (hne : old ≠ receivedMode info) :
    old ∉ (updatedEntry o info).modes
    ∧ (updatedEntry o info).current_mode = some (receivedMode info)
    ∧ (updatedEntry o info).transform = info.transform
    ∧ (updatedEntry o info).scale = info.scale_factor
    ∧ (updatedEntry o info).location = info.location := by
  unfold updatedEntry OutputEntry.delete_mode
    OutputEntry.change_current_state OutputEntry.set_preferred
  rw [hc]
  simp only [Option.getD_some, ne_eq, hne, not_false_eq_true, if_true]
  split_ifs
  all_goals simp_all [List.mem_filter]

theorem updatedEntry_preferred (o : OutputEntry) (info : OutputInfo)
    (h : info.mode.preferred = true) :
    (updatedEntry o info).preferred_mode = some (receivedMode info) := by
  unfold updatedEntry OutputEntry.delete_mode
    OutputEntry.change_current_state OutputEntry.set_preferred
  split_ifs
  all_goals simp_all

/-- Claim C7 (amended): output handling is an idempotent upsert keyed by the
output id: from a state where the id is unknown, applying the same
descriptor twice yields exactly one output entry whose mode list is exactly
the descriptor's mode, with that mode current, and the output is registered
as a global exactly once (on the first application only); when a
descriptor's mode differs from the currently active mode, the old mode
entry is absent from the result and the new mode, transform, integer scale
and position are applied; and the new mode is marked preferred whenever the
descriptor flags it preferred.  (The original claim's "exactly when" fails:
see the counterexample, where a preferred mark set earlier survives a
preferred = false descriptor carrying the same mode.) -/
theorem handle_output_upsert (st : WprsState) (info : OutputInfo) :
    (findA st.outputs info.id = none →
      countA (handle_output (handle_output st info).1 info).1.outputs info.id = 1
      ∧ (findA (handle_output (handle_output st info).1 info).1.outputs
          info.id).map (fun e => e.modes) = some [receivedMode info]
      ∧ (findA (handle_output (handle_output st info).1 info).1.outputs
          info.id).map (fun e => e.current_mode)
          = some (some (receivedMode info))
      ∧ (handle_output st info).2 = [Event.createGlobal info.id]
      ∧ (handle_output (handle_output st info).1 info).2 = [])
    ∧ (∀ o old, findA st.outputs info.id = some o →
        o.current_mode = some old → old ≠ receivedMode info →
        (findA (handle_output st info).1.outputs info.id).map
            (fun e => (old ∈ e.modes : Bool)) = some false
        ∧ (findA (handle_output st info).1.outputs info.id).map
            (fun e => e.current_mode) = some (some (receivedMode info))
        ∧ (findA (handle_output st info).1.outputs info.id).map
            (fun e => (e.transform, e.scale, e.location))
            = some (info.transform, info.scale_factor, info.location))
    ∧ (info.mode.preferred = true →
        (findA (handle_output st info).1.outputs info.id).map
          (fun e => e.preferred_mode) = some (some (receivedMode info))) := by
  refine ⟨?_, ?_, ?_⟩
  · intro hnone
    have h1 := handle_output_fresh st info hnone
    have hf0 : findA (st.outputs ++ [(info.id, OutputEntry.new info.id info)])
        info.id = some (OutputEntry.new info.id info) :=
      findA_append_singleton_self _ _ _ hnone
    have hf1 : findA (handle_output st info).1.outputs info.id
        = some (updatedEntry (OutputEntry.new info.id info) info) := by
      rw [h1]
      exact findA_setA_self _ hf0
    have h2 := handle_output_existing (handle_output st info).1 info _ hf1
    have hnew := updatedEntry_new info.id info
    have hkeep := updatedEntry_keep (updatedEntry (OutputEntry.new info.id info) info)
      info hnew.2 hnew.1
    have hf2 : findA (handle_output (handle_output st info).1 info).1.outputs
        info.id = some (updatedEntry
          (updatedEntry (OutputEntry.new info.id info) info) info) := by
      rw [h2]
      exact findA_setA_self _ hf1
    refine ⟨?_, ?_, ?_, ?_, ?_⟩
    · rw [h2]
      show countA (setA _ _ _) _ = 1
      rw [countA_setA, h1]
      show countA (setA _ _ _) _ = 1
      rw [countA_setA, countA_append, countA_eq_zero hnone, countA_cons]
      simp [countA]
    · rw [hf2, Option.map_some']
      exact congrArg some hkeep.1
    · rw [hf2, Option.map_some']
      exact congrArg some hkeep.2
    · rw [h1]
    · rw [h2]
  · intro o old hsome hc hne
    have h1 := handle_output_existing st info o hsome
    have hf1 : findA (handle_output st info).1.outputs info.id
        = some (updatedEntry o info) := by
      rw [h1]
      exact findA_setA_self _ hsome
    have hd := updatedEntry_diff o info old hc hne
    refine ⟨?_, ?_, ?_⟩
    · rw [hf1, Option.map_some']
      simp [hd.1]
    · rw [hf1, Option.map_some']
      exact congrArg some hd.2.1
    · rw [hf1, Option.map_some']
      exact congrArg some (by rw [hd.2.2.1, hd.2.2.2.1, hd.2.2.2.2])
  · intro hpref
    cases hs : findA st.outputs info.id with
    | some o =>
      have h1 := handle_output_existing st info o hs
      have hf1 : findA (handle_output st info).1.outputs info.id
          = some (updatedEntry o info) := by
        rw [h1]
        exact findA_setA_self _ hs
      rw [hf1, Option.map_some']
      exact congrArg some (updatedEntry_preferred o info hpref)
    | none =>
      have h1 := handle_output_fresh st info hs
      have hf0 : findA (st.outputs ++ [(info.id, OutputEntry.new info.id info)])
          info.id = some (OutputEntry.new info.id info) :=
        findA_append_singleton_self _ _ _ hs
      have hf1 : findA (handle_output st info).1.outputs info.id
          = some (updatedEntry (OutputEntry.new info.id info) info) := by
        rw [h1]
        exact findA_setA_self _ hf0
      rw [hf1, Option.map_some']
      exact congrArg some (updatedEntry_preferred _ info hpref)

/-- Witness for the amended C7 at concrete descriptors: double application
of dC7 leaves one entry, and a differing descriptor removes the old mode. -/
theorem handle_output_upsert_witness :
    countA (handle_output (handle_output emptyState dC7).1 dC7).1.outputs 1 = 1
    ∧ (findA (handle_output emptyState dC7).1.outputs 1).map
        (fun e => e.preferred_mode) = some (some (receivedMode dC7))
    ∧ (findA (handle_output (handle_output emptyState dC7).1 dC7diff).1.outputs
        1).map (fun e => (decide (receivedMode dC7 ∈ e.modes)))
        = some false :=
  ⟨((handle_output_upsert emptyState dC7).1 (by rfl)).1,
   (handle_output_upsert emptyState dC7).2.2 (by rfl),
   ((handle_output_upsert (handle_output emptyState dC7).1 dC7diff).2.1
     (updatedEntry (OutputEntry.new 1 dC7) dC7) (receivedMode dC7)
     (by rfl) (by rfl) (by decide)).1⟩

/-- Counterexample to claim C7 as stated: process descriptor dC7
(mode 800x600, preferred) and then dC7unpref (same mode, preferred =
false).  After the second descriptor the new (and current) mode is still
marked preferred even though the triggering descriptor flags preferred =
false, so "the new mode is marked preferred exactly when the descriptor
flags it preferred" fails in the only-if direction. -/
theorem handle_output_preferred_counterexample :
    dC7unpref.mode.preferred = false
    ∧ (findA (handle_output (handle_output emptyState dC7).1
        dC7unpref).1.outputs 1).map (fun e => e.preferred_mode)
        = some (some (receivedMode dC7unpref)) := by
  constructor
  · rfl
  · rfl

theorem getOrCreateSurface_existing {st : WprsState} {sid : Nat}
    {e0 : XWaylandSurface} (h : findA st.surfaces sid = some e0) :
    getOrCreateSurface st sid = (e0, st) := by
  simp [getOrCreateSurface, h]

theorem getOrCreateSurface_fresh {st : WprsState} {sid : Nat}
    (h : findA st.surfaces sid = none) :
    getOrCreateSurface st sid =
      (XWaylandSurface.new,
       { st with surfaces := st.surfaces ++ [(sid, XWaylandSurface.new)] }) := by
  simp [getOrCreateSurface, h]

theorem findA_getOrCreateSurface (st : WprsState) (sid : Nat) :
    findA (getOrCreateSurface st sid).2.surfaces sid
      = some (getOrCreateSurface st sid).1 := by
  cases h : findA st.surfaces sid with
  | some e0 =>
    rw [getOrCreateSurface_existing h]
    exact h
  | none =>
    rw [getOrCreateSurface_fresh h]
    exact findA_append_singleton_self _ _ _ h

theorem claimX11_cases (st : WprsState) (sid : Nat) :
    claimX11 st sid = (none, st)
    ∨ ∃ p, ∃ hlt : p < st.x11_surfaces.length,
        claimX11 st sid =
          (some (st.x11_surfaces.get ⟨p, hlt⟩),
           { st with x11_surfaces := swapRemove st.x11_surfaces p }) := by
  unfold claimX11
  cases hidx : st.x11_surfaces.findIdx?
      (fun x11s => x11s.wl_surface == some sid) with
  | none => exact Or.inl rfl
  | some p =>
    obtain ⟨hlt, -, -⟩ := List.findIdx?_eq_some_iff_getElem.mp hidx
    refine Or.inr ⟨p, hlt, ?_⟩
    show (st.x11_surfaces.get? p,
      { st with x11_surfaces := swapRemove st.x11_surfaces p })
      = (some (st.x11_surfaces.get ⟨p, hlt⟩),
         { st with x11_surfaces := swapRemove st.x11_surfaces p })
    rw [List.get?_eq_getElem?, List.getElem?_eq_getElem hlt]
    rfl

theorem claimX11_fields (st : WprsState) (sid : Nat) :
    (claimX11 st sid).2.surfaces = st.surfaces
    ∧ (claimX11 st sid).2.pool = st.pool
    ∧ (claimX11 st sid).2.elapsed = st.elapsed := by
  rcases claimX11_cases st sid with h | ⟨p, hlt, h⟩
  · rw [h]
    exact ⟨rfl, rfl, rfl⟩
  · rw [h]
    exact ⟨rfl, rfl, rfl⟩

theorem registerChild_ok_fields {sid : Nat} {parent : Option X11Parent}
    {x11 : Option X11Surface} {st st2 : WprsState}
    (h : registerChild sid parent x11 st = PResult.ok st2) :
    st2.x11_surfaces = st.x11_surfaces ∧ st2.pool = st.pool
    ∧ st2.elapsed = st.elapsed
    ∧ st2.surfaces.map Prod.fst = st.surfaces.map Prod.fst
    ∧ findA st2.surfaces sid = findA st.surfaces sid := by
  cases parent with
  | none =>
    cases x11 with
    | none =>
      simp only [registerChild] at h
      cases h
      exact ⟨rfl, rfl, rfl, rfl, rfl⟩
    | some xs =>
      simp only [registerChild] at h
      cases h
      exact ⟨rfl, rfl, rfl, rfl, rfl⟩
  | some p =>
    cases x11 with
    | none =>
      simp only [registerChild] at h
      cases h
      exact ⟨rfl, rfl, rfl, rfl, rfl⟩
    | some xs =>
      simp only [registerChild] at h
      by_cases hsid : sid = p.surface_id
      · rw [if_pos hsid] at h
        cases h
      · rw [if_neg hsid] at h
        cases hpe : findA st.surfaces p.surface_id with
        | none =>
          rw [hpe] at h
          cases h
        | some pe =>
          rw [hpe] at h
          cases h
          exact ⟨rfl, rfl, rfl, keys_setA _ _ _, findA_setA_ne _ hsid⟩

theorem applyBuffer_ok_fields {sid : Nat} {buf : Option BufferAssignment}
    {e : XWaylandSurface} {pool : Option Unit} {e2 : XWaylandSurface}
    {evs2 : List Event}
    (h : applyBuffer sid buf e pool = RResult.ok (e2, evs2)) :
    e2.x11_surface = e.x11_surface ∧ e2.role = e.role
    ∧ e2.children = e.children
    ∧ (evs2 = [] ∨ evs2 = [Event.attachNone sid]) := by
  cases buf with
  | none =>
    simp only [applyBuffer] at h
    cases h
    exact ⟨rfl, rfl, rfl, Or.inl rfl⟩
  | some ba =>
    cases ba with
    | Removed =>
      simp only [applyBuffer] at h
      cases h
      exact ⟨rfl, rfl, rfl, Or.inr rfl⟩
    | NewBuffer b =>
      simp only [applyBuffer] at h
      cases hv : b.valid with
      | false =>
        simp only [hv, Bool.false_eq_true, if_false] at h
        cases h
      | true =>
        simp only [hv, if_true] at h
        cases pool with
        | none => cases h
        | some u =>
          cases h
          exact ⟨rfl, rfl, rfl, Or.inl rfl⟩

theorem commit_inner_eq (sid : Nat) (buf : Option BufferAssignment)
    (st : WprsState) :
    commit_inner sid buf st =
      match find_x11_parent (claimX11 st sid).2 (claimX11 st sid).1 with
      | PResult.panic => (COutcome.panic, (claimX11 st sid).2, [])
      | PResult.ok parent =>
        match registerChild sid parent (claimX11 st sid).1
            (claimX11 st sid).2 with
        | PResult.panic => (COutcome.panic, (claimX11 st sid).2, [])
        | PResult.ok st2 => commitRest sid buf (claimX11 st sid).1 st2 := rfl

theorem commit_inner_panic_fp {sid : Nat} {buf : Option BufferAssignment}
    {st : WprsState}
    (h : find_x11_parent (claimX11 st sid).2 (claimX11 st sid).1
      = PResult.panic) :
    commit_inner sid buf st = (COutcome.panic, (claimX11 st sid).2, []) := by
  rw [commit_inner_eq, h]

theorem commit_inner_panic_rc {sid : Nat} {buf : Option BufferAssignment}
    {st : WprsState} {parent : Option X11Parent}
    (hfp : find_x11_parent (claimX11 st sid).2 (claimX11 st sid).1
      = PResult.ok parent)
    (hrc : registerChild sid parent (claimX11 st sid).1 (claimX11 st sid).2
      = PResult.panic) :
    commit_inner sid buf st = (COutcome.panic, (claimX11 st sid).2, []) := by
  rw [commit_inner_eq, hfp]
  show (match registerChild sid parent (claimX11 st sid).1
      (claimX11 st sid).2 with
    | PResult.panic => (COutcome.panic, (claimX11 st sid).2, ([] : List Event))
    | PResult.ok st2 => commitRest sid buf (claimX11 st sid).1 st2) = _
  rw [hrc]

theorem commit_inner_ok_rc {sid : Nat} {buf : Option BufferAssignment}
    {st : WprsState} {parent : Option X11Parent} {st2 : WprsState}
    (hfp : find_x11_parent (claimX11 st sid).2 (claimX11 st sid).1
      = PResult.ok parent)
    (hrc : registerChild sid parent (claimX11 st sid).1 (claimX11 st sid).2
      = PResult.ok st2) :
    commit_inner sid buf st = commitRest sid buf (claimX11 st sid).1 st2 := by
  rw [commit_inner_eq, hfp]
  show (match registerChild sid parent (claimX11 st sid).1
      (claimX11 st sid).2 with
    | PResult.panic => (COutcome.panic, (claimX11 st sid).2, ([] : List Event))
    | PResult.ok st2 => commitRest sid buf (claimX11 st sid).1 st2) = _
  rw [hrc]

theorem commitRest_err {sid : Nat} {buf : Option BufferAssignment}
    {x11 : Option X11Surface} {st : WprsState}
    (h : applyBuffer sid buf (commitEntry1 sid x11 st)
        (commitStateA sid x11 st).pool = RResult.err) :
    commitRest sid buf x11 st = (COutcome.err, commitStateA sid x11 st, []) := by
  simp only [commitRest, h]

theorem commitRest_ok {sid : Nat} {buf : Option BufferAssignment}
    {x11 : Option X11Surface} {st : WprsState} {e2 : XWaylandSurface}
    {evs2 : List Event}
    (h : applyBuffer sid buf (commitEntry1 sid x11 st)
        (commitStateA sid x11 st).pool = RResult.ok (e2, evs2)) :
    commitRest sid buf x11 st =
      (COutcome.ok,
       { commitStateA sid x11 st with
           surfaces := setA (commitStateA sid x11 st).surfaces sid e2 },
       evs2 ++ decorationEvents sid e2
         ++ [Event.frame sid, Event.commitSurface sid]
         ++ (if e2.x11_surface = none ∨ e2.role = some Role.Cursor
             then [Event.sendFrames sid st.elapsed 0] else [])) := by
  simp only [commitRest, h]
  by_cases hc : e2.x11_surface = none ∨ e2.role = some Role.Cursor
  · rw [if_pos hc, if_pos hc, List.append_assoc]
  · rw [if_neg hc, if_neg hc, List.append_nil]

theorem findA_commitStateA (sid : Nat) (x11 : Option X11Surface)
    (st : WprsState) :
    findA (commitStateA sid x11 st).surfaces sid
      = some (commitEntry1 sid x11 st) :=
  findA_setA_self _ (findA_getOrCreateSurface st sid)

theorem commitEntry1_buffer (sid : Nat) (x11 : Option X11Surface)
    (st : WprsState) :
    (commitEntry1 sid x11 st).buffer = (getOrCreateSurface st sid).1.buffer := by
  unfold commitEntry1
  cases x11 with
  | none => rfl
  | some xs => rfl

theorem commitEntry1_none (sid : Nat) (st : WprsState) :
    commitEntry1 sid none st = (getOrCreateSurface st sid).1 := rfl

theorem commitEntry1_some (sid : Nat) (xs : X11Surface) (st : WprsState) :
    commitEntry1 sid (some xs) st
      = { (getOrCreateSurface st sid).1 with x11_surface := some xs } := rfl

/-- Counterexample to claim C2 as stated: in a state with no pixel pool, a
commit of surface 1 carrying a valid new buffer fails recoverably at the
buffer step, yet the pairing mutations made earlier in that same commit
persist after the failure: window 10, unpaired before the commit, has been
removed from the unpaired set and bound to the surface's registry entry.
The surface is not left in its pre-failure state. -/
theorem commit_inner_partial_mutation_counterexample :
    stC2.x11_surfaces = [wC2]
    ∧ (commit_inner 1 bufC2 stC2).1 = COutcome.err
    ∧ (commit_inner 1 bufC2 stC2).2.1.x11_surfaces = []
    ∧ (findA (commit_inner 1 bufC2 stC2).2.1.surfaces 1).map
        (fun e => e.x11_surface) = some (some wC2) := by
  refine ⟨rfl, rfl, rfl, rfl⟩

/-- Claim C2 (amended): when a commit step fails recoverably (buffer decode
error, missing pixel pool), the error outcome is propagated (to be logged
with its originating location by the caller) and the remainder of the
commit is abandoned: no buffer attach, decoration redraw, frame request,
protocol commit or frame-completion synthesis is performed, and the
surface's stored buffer is unchanged from before the commit.  Mutations
made by steps that completed before the failing step — pairing and
child-set registration — do persist (see the counterexample); a later
commit can retry. -/
theorem commit_inner_err_abandons (sid : Nat) (buf : Option BufferAssignment)
    (st : WprsState) (h : (commit_inner sid buf st).1 = COutcome.err) :
    (commit_inner sid buf st).2.2 = []
    ∧ (∀ e0, findA st.surfaces sid = some e0 →
        (findA (commit_inner sid buf st).2.1.surfaces sid).map
          (fun e => e.buffer) = some e0.buffer) := by
  cases hfp : find_x11_parent (claimX11 st sid).2 (claimX11 st sid).1 with
  | panic =>
    rw [commit_inner_panic_fp hfp] at h
    simp at h
  | ok parent =>
    cases hrc : registerChild sid parent (claimX11 st sid).1
        (claimX11 st sid).2 with
    | panic =>
      rw [commit_inner_panic_rc hfp hrc] at h
      simp at h
    | ok st2 =>
      rw [commit_inner_ok_rc hfp hrc] at h ⊢
      cases hab : applyBuffer sid buf
          (commitEntry1 sid (claimX11 st sid).1 st2)
          (commitStateA sid (claimX11 st sid).1 st2).pool with
      | ok pr =>
        obtain ⟨e2, evs2⟩ := pr
        rw [commitRest_ok hab] at h
        simp at h
      | err =>
        rw [commitRest_err hab]
        refine ⟨rfl, ?_⟩
        intro e0 he0
        have hst2 : findA st2.surfaces sid = some e0 := by
          rw [(registerChild_ok_fields hrc).2.2.2.2,
            (claimX11_fields st sid).1, he0]
        show (findA (commitStateA sid (claimX11 st sid).1 st2).surfaces
            sid).map (fun e => e.buffer) = some e0.buffer
        rw [findA_commitStateA, Option.map_some', commitEntry1_buffer,
          getOrCreateSurface_existing hst2]

/-- Witness for the amended C2: a commit with no pool and a valid new
buffer errors with no protocol-visible event and leaves the stored buffer
of a pre-existing entry unchanged. -/
theorem commit_inner_err_abandons_witness :
    (commit_inner 1
        (some (BufferAssignment.NewBuffer
          { valid := true, contents := { format := 0, data := [1] } }))
        { emptyState with surfaces := [(1, XWaylandSurface.new)] }).2.2 = []
    ∧ (findA (commit_inner 1
        (some (BufferAssignment.NewBuffer
          { valid := true, contents := { format := 0, data := [1] } }))
        { emptyState with
            surfaces := [(1, XWaylandSurface.new)] }).2.1.surfaces 1).map
        (fun e => e.buffer) = some XWaylandSurface.new.buffer :=
  ⟨(commit_inner_err_abandons 1 _ _ (by rfl)).1,
   (commit_inner_err_abandons 1 _ _ (by rfl)).2 XWaylandSurface.new (by rfl)⟩

/-- Claim C9: for a surface-backed cursor update whose surface has hotspot
metadata recorded, the presenter succeeds, get-or-creates the surface's
registry entry (preserving the other fields of an existing entry, and
starting from a fresh entry otherwise), sets that entry's role to Cursor,
and instructs the seat pointer to display that surface at the recorded
hotspot using the most recently recorded pointer-enter serial. -/
theorem cursor_image_surface (st : WprsState) (sid : Nat) (h : Point)
    (hh : findA st.hotspots sid = some h) :
    (cursor_image st (CursorImageStatus.Surface sid)).1 = COutcome.ok
    ∧ (cursor_image st (CursorImageStatus.Surface sid)).2.2
        = [Event.setCursor st.last_enter_serial sid h.x h.y]
    ∧ (∀ e0, findA st.surfaces sid = some e0 →
        findA (cursor_image st (CursorImageStatus.Surface sid)).2.1.surfaces
          sid = some { e0 with role := some Role.Cursor })
    ∧ (findA st.surfaces sid = none →
        findA (cursor_image st (CursorImageStatus.Surface sid)).2.1.surfaces
          sid = some { XWaylandSurface.new with role := some Role.Cursor }) := by
  have hci : cursor_image st (CursorImageStatus.Surface sid)
      = (COutcome.ok,
         { (getOrCreateSurface st sid).2 with
             surfaces := setA (getOrCreateSurface st sid).2.surfaces sid
               { (getOrCreateSurface st sid).1 with role := some Role.Cursor } },
         [Event.setCursor st.last_enter_serial sid h.x h.y]) := by
    simp only [cursor_image, hh]
  refine ⟨by rw [hci], by rw [hci], ?_, ?_⟩
  · intro e0 he0
    rw [hci]
    show findA (setA (getOrCreateSurface st sid).2.surfaces sid
      { (getOrCreateSurface st sid).1 with role := some Role.Cursor }) sid = _
    rw [findA_setA_self _ (findA_getOrCreateSurface st sid),
      getOrCreateSurface_existing he0]
  · intro he0
    rw [hci]
    show findA (setA (getOrCreateSurface st sid).2.surfaces sid
      { (getOrCreateSurface st sid).1 with role := some Role.Cursor }) sid = _
    rw [findA_setA_self _ (findA_getOrCreateSurface st sid),
      getOrCreateSurface_fresh he0]

/-- Witness for C9: surface 3 with hotspot (2,4) recorded and no existing
entry is displayed at that hotspot with enter serial 42 and gets role
Cursor. -/
theorem cursor_image_surface_witness :
    (cursor_image stC9 (CursorImageStatus.Surface 3)).2.2
      = [Event.setCursor 42 3 2 4]
    ∧ findA (cursor_image stC9 (CursorImageStatus.Surface 3)).2.1.surfaces 3
      = some { XWaylandSurface.new with role := some Role.Cursor } :=
  ⟨(cursor_image_surface stC9 3 { x := 2, y := 4 } (by rfl)).2.1,
   (cursor_image_surface stC9 3 { x := 2, y := 4 } (by rfl)).2.2.2 (by rfl)⟩

theorem decorationEvents_cases (sid : Nat) (e : XWaylandSurface) :
    decorationEvents sid e = []
    ∨ decorationEvents sid e = [Event.drawWindowFrame sid] := by
  unfold decorationEvents
  cases e.role with
  | none => exact Or.inl rfl
  | some r =>
    cases r with
    | XdgToplevel t =>
      show (if t.configured && t.frame_dirty
          then [Event.drawWindowFrame sid] else []) = []
        ∨ (if t.configured && t.frame_dirty
          then [Event.drawWindowFrame sid] else [])
          = [Event.drawWindowFrame sid]
      by_cases hc : t.configured && t.frame_dirty
      · rw [if_pos hc]
        exact Or.inr rfl
      · rw [if_neg hc]
        exact Or.inl rfl
    | XdgPopup p => exact Or.inl rfl
    | Cursor => exact Or.inl rfl

/-- Claim C8: for every commit that completes without error, an immediate
frame-completion callback — timestamped with the elapsed process time and
zero additional delay — is synthesized locally if and only if, after the
pairing step of that commit, the surface has no X11 pairing at all or its
role is Cursor; paired non-cursor surfaces receive no locally synthesized
completion. -/
theorem commit_inner_frame_synthesis (sid : Nat)
    (buf : Option BufferAssignment) (st : WprsState)
    (h : (commit_inner sid buf st).1 = COutcome.ok) :
    ∃ e, findA (commit_inner sid buf st).2.1.surfaces sid = some e
      ∧ (Event.sendFrames sid st.elapsed 0 ∈ (commit_inner sid buf st).2.2
          ↔ (e.x11_surface = none ∨ e.role = some Role.Cursor)) := by
  cases hfp : find_x11_parent (claimX11 st sid).2 (claimX11 st sid).1 with
  | panic =>
    rw [commit_inner_panic_fp hfp] at h
    simp at h
  | ok parent =>
    cases hrc : registerChild sid parent (claimX11 st sid).1
        (claimX11 st sid).2 with
    | panic =>
      rw [commit_inner_panic_rc hfp hrc] at h
      simp at h
    | ok st2 =>
      rw [commit_inner_ok_rc hfp hrc] at h ⊢
      cases hab : applyBuffer sid buf
          (commitEntry1 sid (claimX11 st sid).1 st2)
          (commitStateA sid (claimX11 st sid).1 st2).pool with
      | err =>
        rw [commitRest_err hab] at h
        simp at h
      | ok pr =>
        obtain ⟨e2, evs2⟩ := pr
        rw [commitRest_ok hab]
        have hel : st2.elapsed = st.elapsed := by
          rw [(registerChild_ok_fields hrc).2.2.1, (claimX11_fields st sid).2.2]
        show ∃ e,
          findA (setA (commitStateA sid (claimX11 st sid).1 st2).surfaces
            sid e2) sid = some e
          ∧ (Event.sendFrames sid st.elapsed 0 ∈
              evs2 ++ decorationEvents sid e2
                ++ [Event.frame sid, Event.commitSurface sid]
                ++ (if e2.x11_surface = none ∨ e2.role = some Role.Cursor
                    then [Event.sendFrames sid st2.elapsed 0] else [])
            ↔ (e.x11_surface = none ∨ e.role = some Role.Cursor))
        rw [hel]
        refine ⟨e2, findA_setA_self _ (findA_commitStateA _ _ _), ?_⟩
        by_cases hc : e2.x11_surface = none ∨ e2.role = some Role.Cursor
        · rw [if_pos hc]
          constructor
          · intro _
            exact hc
          · intro _
            simp [List.mem_append]
        · rw [if_neg hc]
          constructor
          · intro hmem
            exfalso
            rcases (applyBuffer_ok_fields hab).2.2.2 with hev | hev <;>
              rcases decorationEvents_cases sid e2 with hd | hd <;>
              rw [hev, hd] at hmem <;> simp at hmem
          · intro hcc
            exact absurd hcc hc

/-- Witness for C8: an errorless commit of surface 2 (no matching X11
window, no buffer) synthesizes the immediate frame completion, and its
entry is indeed unpaired. -/
theorem commit_inner_frame_synthesis_witness :
    (commit_inner 2 none emptyState).1 = COutcome.ok
    ∧ ∃ e, findA (commit_inner 2 none emptyState).2.1.surfaces 2 = some e
        ∧ (Event.sendFrames 2 emptyState.elapsed 0
            ∈ (commit_inner 2 none emptyState).2.2
          ↔ (e.x11_surface = none ∨ e.role = some Role.Cursor)) :=
  ⟨by rfl, commit_inner_frame_synthesis 2 none emptyState (by rfl)⟩

theorem mem_insertChild_self (sid : Nat) (cs : List Nat) :
    sid ∈ insertChild sid cs := by
  unfold insertChild
  by_cases h : sid ∈ cs
  · rw [if_pos h]
    exact h
  · rw [if_neg h]
    exact List.mem_append_right _ (List.mem_singleton.mpr rfl)

theorem findA_getOrCreate_ne (st : WprsState) (sid k : Nat) (hk : k ≠ sid) :
    findA (getOrCreateSurface st sid).2.surfaces k = findA st.surfaces k := by
  cases h : findA st.surfaces sid with
  | some e0 => rw [getOrCreateSurface_existing h]
  | none =>
    rw [getOrCreateSurface_fresh h]
    show findA (st.surfaces ++ [(sid, XWaylandSurface.new)]) k
      = findA st.surfaces k
    rw [findA_append]
    cases hfk : findA st.surfaces k with
    | some v => rfl
    | none =>
      show findA [(sid, XWaylandSurface.new)] k = none
      rw [findA_pair_cons, if_neg (fun hs => hk hs.symm)]
      rfl

theorem commitRest_findA_ne (sid : Nat) (buf : Option BufferAssignment)
    (x11 : Option X11Surface) (st : WprsState) (k : Nat) (hk : k ≠ sid) :
    findA (commitRest sid buf x11 st).2.1.surfaces k = findA st.surfaces k := by
  have hA : findA (commitStateA sid x11 st).surfaces k = findA st.surfaces k := by
    show findA (setA (getOrCreateSurface st sid).2.surfaces sid
      (commitEntry1 sid x11 st)) k = findA st.surfaces k
    rw [findA_setA_ne _ hk, findA_getOrCreate_ne st sid k hk]
  cases hab : applyBuffer sid buf (commitEntry1 sid x11 st)
      (commitStateA sid x11 st).pool with
  | err =>
    rw [commitRest_err hab]
    exact hA
  | ok pr =>
    obtain ⟨e2, evs2⟩ := pr
    rw [commitRest_ok hab]
    show findA (setA (commitStateA sid x11 st).surfaces sid e2) k
      = findA st.surfaces k
    rw [findA_setA_ne _ hk]
    exact hA

/-- Claim C5: when the parent resolved for a freshly claimed X11 window is
the committing surface itself, the commit halts loudly at the self-parent
assertion and no entry's child set is mutated (the whole registry is
unchanged); when the resolved parent is a different surface with a registry
entry, the committing surface's id is inserted into that parent entry's
child set. -/
theorem commit_inner_self_parent (sid : Nat) (buf : Option BufferAssignment)
    (st : WprsState) (p : X11Parent) (xs : X11Surface)
    (hx : (claimX11 st sid).1 = some xs)
    (hp : find_x11_parent (claimX11 st sid).2 (claimX11 st sid).1
      = PResult.ok (some p)) :
    (sid = p.surface_id →
      (commit_inner sid buf st).1 = COutcome.panic
      ∧ (commit_inner sid buf st).2.1.surfaces = st.surfaces)
    ∧ (sid ≠ p.surface_id →
      ∀ pe, findA st.surfaces p.surface_id = some pe →
        (findA (commit_inner sid buf st).2.1.surfaces p.surface_id).map
          (fun e => decide (sid ∈ e.children)) = some true) := by
  constructor
  · intro hsid
    have hrc : registerChild sid (some p) (claimX11 st sid).1
        (claimX11 st sid).2 = PResult.panic := by
      rw [hx]
      show (if sid = p.surface_id then PResult.panic else _) = PResult.panic
      rw [if_pos hsid]
    rw [commit_inner_panic_rc hp hrc]
    exact ⟨rfl, (claimX11_fields st sid).1⟩
  · intro hsid pe hpe
    have hpe2 : findA (claimX11 st sid).2.surfaces p.surface_id = some pe := by
      rw [(claimX11_fields st sid).1]
      exact hpe
    have hrc : registerChild sid (some p) (claimX11 st sid).1
        (claimX11 st sid).2
        = PResult.ok { (claimX11 st sid).2 with
            surfaces := setA (claimX11 st sid).2.surfaces p.surface_id
              { pe with children := insertChild sid pe.children } } := by
      rw [hx]
      simp only [registerChild]
      rw [if_neg hsid, hpe2]
    rw [commit_inner_ok_rc hp hrc]
    rw [commitRest_findA_ne sid buf (claimX11 st sid).1 _ p.surface_id
      (fun he => hsid he.symm)]
    show (findA (setA (claimX11 st sid).2.surfaces p.surface_id
      { pe with children := insertChild sid pe.children }) p.surface_id).map
        (fun e => decide (sid ∈ e.children)) = some true
    rw [findA_setA_self _ hpe2, Option.map_some']
    simp [mem_insertChild_self]

/-- Witness for C5: committing surface 1 inserts it into parent surface 2's
child set; in the self-parent state the commit panics with the registry
unchanged. -/
theorem commit_inner_self_parent_witness :
    (findA (commit_inner 1 none stC5).2.1.surfaces 2).map
        (fun e => decide (1 ∈ e.children)) = some true
    ∧ (commit_inner 1 none stC5self).1 = COutcome.panic
    ∧ (commit_inner 1 none stC5self).2.1.surfaces = stC5self.surfaces :=
  ⟨(commit_inner_self_parent 1 none stC5 ⟨2, some 7, ⟨2, 8, ⟨-9, -18⟩⟩⟩ wC5
      (by rfl) (by rfl)).2 (by decide) peC3 (by rfl),
   ((commit_inner_self_parent 1 none stC5self ⟨1, some 7, ⟨1, 8, ⟨-9, -18⟩⟩⟩
      wC5 (by rfl) (by rfl)).1 rfl).1,
   ((commit_inner_self_parent 1 none stC5self ⟨1, some 7, ⟨1, 8, ⟨-9, -18⟩⟩⟩
      wC5 (by rfl) (by rfl)).1 rfl).2⟩

theorem execute_or_defer_ok (sid : Nat) (buf : Option BufferAssignment)
    (st : WprsState) (h : (commit_inner sid buf st).1 = COutcome.ok) :
    execute_or_defer_commit sid buf st =
      (if pairedOrCursor (commit_inner sid buf st).2.1 sid
       then (COutcome.ok, (commit_inner sid buf st).2.1,
         (commit_inner sid buf st).2.2)
       else (COutcome.ok,
         { (commit_inner sid buf st).2.1 with
             commit_hooks := (commit_inner sid buf st).2.1.commit_hooks
               ++ [sid],
             idle_queue := (commit_inner sid buf st).2.1.idle_queue ++ [sid] },
         (commit_inner sid buf st).2.2)) := by
  have heq : commit sid buf st
      = (COutcome.ok, (commit_inner sid buf st).2.1,
         (commit_inner sid buf st).2.2) := by
    show commit_inner sid buf st = _
    rw [← h]
  simp only [execute_or_defer_commit, heq]

theorem commit_inner_no_match (sid : Nat) (buf : Option BufferAssignment)
    (st : WprsState)
    (hnm : st.x11_surfaces.findIdx?
      (fun x11s => x11s.wl_surface == some sid) = none)
    (hpc : pairedOrCursor st sid = false) :
    pairedOrCursor (commit_inner sid buf st).2.1 sid = false := by
  have hcx : claimX11 st sid = (none, st) := by
    unfold claimX11
    rw [hnm]
  have hfp : find_x11_parent (claimX11 st sid).2 (claimX11 st sid).1
      = PResult.ok none := by
    rw [hcx]
    rfl
  have hrc : registerChild sid none (claimX11 st sid).1 (claimX11 st sid).2
      = PResult.ok st := by
    rw [hcx]
    rfl
  rw [commit_inner_ok_rc hfp hrc,
    show (claimX11 st sid).1 = none from by rw [hcx]]
  have hbase : ((commitEntry1 sid none st).x11_surface.isSome
      || (match (commitEntry1 sid none st).role with
          | some Role.Cursor => true
          | _ => false)) = false := by
    rw [commitEntry1_none]
    cases hfs : findA st.surfaces sid with
    | some e0 =>
      rw [getOrCreateSurface_existing hfs]
      unfold pairedOrCursor at hpc
      rw [hfs] at hpc
      exact hpc
    | none =>
      rw [getOrCreateSurface_fresh hfs]
      rfl
  cases hab : applyBuffer sid buf (commitEntry1 sid none st)
      (commitStateA sid none st).pool with
  | err =>
    rw [commitRest_err hab]
    unfold pairedOrCursor
    show (match findA (commitStateA sid none st).surfaces sid with
      | some e => e.x11_surface.isSome
          || (match e.role with | some Role.Cursor => true | _ => false)
      | none => false) = false
    rw [findA_commitStateA]
    exact hbase
  | ok pr =>
    obtain ⟨e2, evs2⟩ := pr
    rw [commitRest_ok hab]
    unfold pairedOrCursor
    have hfind : findA (setA (commitStateA sid none st).surfaces sid e2) sid
        = some e2 :=
      findA_setA_self _ (findA_commitStateA _ _ _)
    show (match findA (setA (commitStateA sid none st).surfaces sid e2)
        sid with
      | some e => e.x11_surface.isSome
          || (match e.role with | some Role.Cursor => true | _ => false)
      | none => false) = false
    rw [hfind]
    show (e2.x11_surface.isSome
      || (match e2.role with | some Role.Cursor => true | _ => false)) = false
    rw [(applyBuffer_ok_fields hab).1, (applyBuffer_ok_fields hab).2.1]
    exact hbase

/-- Claim C1: for a commit that completes its inner pipeline without error:
if afterwards the surface is neither paired with an X11 window nor a
Cursor-role surface (which is the case whenever no unpaired X11 window
matched it during this pass and it was unpaired and non-cursor before),
the pipeline registers a pairing commit-hook for the surface and
re-enqueues the exact same commit operation on the event loop's idle
queue, returning ok; a commit leaving the surface paired or cursor-role
schedules no retry and leaves the state untouched; and the scheduled retry
is idempotent — run on the deferred state, it defers again when the
surface is still unpaired. -/
theorem execute_or_defer_deferral (sid : Nat) (buf : Option BufferAssignment)
    (st : WprsState) (h : (commit_inner sid buf st).1 = COutcome.ok) :
    (execute_or_defer_commit sid buf st).1 = COutcome.ok
    ∧ (pairedOrCursor (commit_inner sid buf st).2.1 sid = false →
        (execute_or_defer_commit sid buf st).2.1.commit_hooks
          = (commit_inner sid buf st).2.1.commit_hooks ++ [sid]
        ∧ (execute_or_defer_commit sid buf st).2.1.idle_queue
          = (commit_inner sid buf st).2.1.idle_queue ++ [sid])
    ∧ (pairedOrCursor (commit_inner sid buf st).2.1 sid = true →
        (execute_or_defer_commit sid buf st).2.1
          = (commit_inner sid buf st).2.1)
    ∧ (st.x11_surfaces.findIdx?
          (fun x11s => x11s.wl_surface == some sid) = none →
        pairedOrCursor st sid = false →
        pairedOrCursor (commit_inner sid buf st).2.1 sid = false)
    ∧ (∀ buf2 st3, (commit_inner sid buf2 st3).1 = COutcome.ok →
        pairedOrCursor (commit_inner sid buf2 st3).2.1 sid = false →
        (execute_or_defer_commit sid buf2 st3).2.1.idle_queue
          = (commit_inner sid buf2 st3).2.1.idle_queue ++ [sid]
        ∧ (execute_or_defer_commit sid buf2 st3).2.1.commit_hooks
          = (commit_inner sid buf2 st3).2.1.commit_hooks ++ [sid]) := by
  have he := execute_or_defer_ok sid buf st h
  refine ⟨?_, ?_, ?_, ?_, ?_⟩
  · rw [he]
    by_cases hc : pairedOrCursor (commit_inner sid buf st).2.1 sid
    · rw [if_pos hc]
    · rw [if_neg hc]
  · intro hpc
    rw [he, if_neg (by simp [hpc])]
    exact ⟨rfl, rfl⟩
  · intro hpc
    rw [he, if_pos hpc]
  · intro hnm hpc
    exact commit_inner_no_match sid buf st hnm hpc
  · intro buf2 st3 h2 hpc2
    rw [execute_or_defer_ok sid buf2 st3 h2, if_neg (by simp [hpc2])]
    exact ⟨rfl, rfl⟩

/-- Witness for C1: committing surface 2 in the empty state (no matching
X11 window) succeeds, registers the commit-hook and enqueues the retry;
the enqueued retry on the deferred state defers again. -/
theorem execute_or_defer_deferral_witness :
    (execute_or_defer_commit 2 none emptyState).1 = COutcome.ok
    ∧ (execute_or_defer_commit 2 none emptyState).2.1.commit_hooks
        = (commit_inner 2 none emptyState).2.1.commit_hooks ++ [2]
    ∧ (execute_or_defer_commit 2 none emptyState).2.1.idle_queue
        = (commit_inner 2 none emptyState).2.1.idle_queue ++ [2]
    ∧ (execute_or_defer_commit 2 none
          (execute_or_defer_commit 2 none emptyState).2.1).2.1.idle_queue
        = (commit_inner 2 none
            (execute_or_defer_commit 2 none emptyState).2.1).2.1.idle_queue
          ++ [2] :=
  ⟨(execute_or_defer_deferral 2 none emptyState (by rfl)).1,
   ((execute_or_defer_deferral 2 none emptyState (by rfl)).2.1 (by rfl)).1,
   ((execute_or_defer_deferral 2 none emptyState (by rfl)).2.1 (by rfl)).2,
   ((execute_or_defer_deferral 2 none emptyState (by rfl)).2.2.2.2
      none (execute_or_defer_commit 2 none emptyState).2.1
      (by rfl) (by rfl)).1⟩

theorem not_mem_keys_of_findA_none {α : Type} {l : List (Nat × α)} {k : Nat}
    (h : findA l k = none) : k ∉ l.map Prod.fst := by
  intro hmem
  obtain ⟨p, hp, hfst⟩ := List.mem_map.mp hmem
  exact (findA_eq_none_iff.mp h) p hp hfst

theorem filterMap_setA {α β : Type} (g : Nat × α → Option β)
    {l : List (Nat × α)} {k : Nat} {e : α} (v : α)
    (hnd : (l.map Prod.fst).Nodup) (he : findA l k = some e)
    (hg : g (k, v) = g (k, e)) :
    (setA l k v).filterMap g = l.filterMap g := by
  obtain ⟨l1, l2, heq, hl1⟩ := findA_decomp he
  subst heq
  have h1 : k ∉ l1.map Prod.fst := by
    intro hmem
    obtain ⟨p, hp, hfst⟩ := List.mem_map.mp hmem
    exact hl1 p hp hfst
  have h2 : k ∉ l2.map Prod.fst := by
    rw [List.map_append, List.map_cons] at hnd
    rcases List.nodup_append.mp hnd with ⟨-, hn2, -⟩
    exact (List.nodup_cons.mp hn2).1
  rw [setA_append, setA_of_not_mem_keys v h1, setA_cons,
    if_pos (rfl : (k, e).1 = k), setA_of_not_mem_keys v h2,
    List.filterMap_append, List.filterMap_append, List.filterMap_cons,
    List.filterMap_cons, hg]

theorem filterMap_setA_decomp {α β : Type} (g : Nat × α → Option β)
    {l : List (Nat × α)} {k : Nat} {e : α} (v : α)
    (hnd : (l.map Prod.fst).Nodup) (he : findA l k = some e) :
    ∃ A B, l.filterMap g = A ++ (g (k, e)).toList ++ B
      ∧ (setA l k v).filterMap g = A ++ (g (k, v)).toList ++ B := by
  obtain ⟨l1, l2, heq, hl1⟩ := findA_decomp he
  subst heq
  have h1 : k ∉ l1.map Prod.fst := by
    intro hmem
    obtain ⟨p, hp, hfst⟩ := List.mem_map.mp hmem
    exact hl1 p hp hfst
  have h2 : k ∉ l2.map Prod.fst := by
    rw [List.map_append, List.map_cons] at hnd
    rcases List.nodup_append.mp hnd with ⟨-, hn2, -⟩
    exact (List.nodup_cons.mp hn2).1
  refine ⟨l1.filterMap g, l2.filterMap g, ?_, ?_⟩
  · rw [List.filterMap_append, List.filterMap_cons]
    cases hgk : g (k, e) with
    | none => simp
    | some b => simp
  · rw [setA_append, setA_of_not_mem_keys v h1, setA_cons,
      if_pos (rfl : (k, e).1 = k), setA_of_not_mem_keys v h2,
      List.filterMap_append, List.filterMap_cons]
    cases hgk : g (k, v) with
    | none => simp
    | some b => simp

theorem nodup_replace_middle {A B m0 m1 : List Nat}
    (hnd : (A ++ m0 ++ B).Nodup) (hm1 : m1.Nodup)
    (hdisj : ∀ x ∈ m1, x ∉ A ∧ x ∉ B) :
    (A ++ m1 ++ B).Nodup := by
  rcases List.nodup_append.mp hnd with ⟨hAm0, hB, hd1⟩
  rcases List.nodup_append.mp hAm0 with ⟨hA, hm0, hd2⟩
  rw [List.nodup_append]
  refine ⟨?_, hB, ?_⟩
  · rw [List.nodup_append]
    refine ⟨hA, hm1, ?_⟩
    intro a haA ham1
    exact (hdisj a ham1).1 haA
  · intro a ha haB
    rcases List.mem_append.mp ha with hmem | hmem
    · exact hd1 (List.mem_append_left _ hmem) haB
    · exact (hdisj a hmem).2 haB

theorem mem_replace_middle {A B m0 m1 : List Nat} {y : Nat}
    (hy : y ∈ A ++ m1 ++ B) : y ∈ A ++ m0 ++ B ∨ y ∈ m1 := by
  rcases List.mem_append.mp hy with hmem | hmem
  · rcases List.mem_append.mp hmem with hmem2 | hmem2
    · exact Or.inl (List.mem_append_left _ (List.mem_append_left _ hmem2))
    · exact Or.inr hmem2
  · exact Or.inl (List.mem_append_right _ hmem)

theorem keys_append_fresh {α : Type} {l : List (Nat × α)} {k : Nat} (v : α)
    (h : findA l k = none) (hnd : (l.map Prod.fst).Nodup) :
    ((l ++ [(k, v)]).map Prod.fst).Nodup := by
  rw [List.map_append]
  rw [List.nodup_append]
  refine ⟨hnd, List.nodup_singleton _, ?_⟩
  intro a ha hb
  have : a = k := by simpa using hb
  subst this
  exact not_mem_keys_of_findA_none h ha

theorem WF_claimX11 (st : WprsState) (sid : Nat) (hw : WF st) :
    WF (claimX11 st sid).2
    ∧ pairedWindows (claimX11 st sid).2 = pairedWindows st
    ∧ (∀ w ∈ unpairedWindows (claimX11 st sid).2, w ∈ unpairedWindows st)
    ∧ (∀ xs, (claimX11 st sid).1 = some xs →
        xs.window_id ∉ unpairedWindows (claimX11 st sid).2
        ∧ xs.window_id ∈ unpairedWindows st) := by
  obtain ⟨hk, hpm, hun, hdis⟩ := hw
  rcases claimX11_cases st sid with hcx | ⟨p, hlt, hcx⟩
  · rw [hcx]
    exact ⟨⟨hk, hpm, hun, hdis⟩, rfl, fun w hw2 => hw2,
      fun xs hxs => Option.noConfusion hxs⟩
  · rw [hcx]
    refine ⟨⟨hk, hpm, ?_, ?_⟩, rfl, ?_, ?_⟩
    · exact nodup_map_swapRemove X11Surface.window_id hlt hun
    · intro w hw2
      apply hdis
      obtain ⟨x, hx, hwid⟩ := List.mem_map.mp hw2
      exact hwid ▸ List.mem_map_of_mem _ (mem_of_mem_swapRemove hlt hx)
    · intro w hw2
      obtain ⟨x, hx, hwid⟩ := List.mem_map.mp hw2
      exact hwid ▸ List.mem_map_of_mem _ (mem_of_mem_swapRemove hlt hx)
    · intro xs hxs
      have hxe : st.x11_surfaces.get ⟨p, hlt⟩ = xs := Option.some.inj hxs
      subst hxe
      constructor
      · exact map_getElem_not_mem_map_swapRemove X11Surface.window_id hlt hun
      · exact List.mem_map_of_mem _ (List.get_mem _ _ _)

theorem WF_registerChild {sid : Nat} {parent : Option X11Parent}
    {x11 : Option X11Surface} {st st2 : WprsState}
    (h : registerChild sid parent x11 st = PResult.ok st2) (hw : WF st) :
    WF st2 ∧ pairedWindows st2 = pairedWindows st
    ∧ unpairedWindows st2 = unpairedWindows st := by
  obtain ⟨hk, hpm, hun, hdis⟩ := hw
  cases parent with
  | none =>
    cases x11 with
    | none =>
      simp only [registerChild] at h
      cases h
      exact ⟨⟨hk, hpm, hun, hdis⟩, rfl, rfl⟩
    | some xs =>
      simp only [registerChild] at h
      cases h
      exact ⟨⟨hk, hpm, hun, hdis⟩, rfl, rfl⟩
  | some p =>
    cases x11 with
    | none =>
      simp only [registerChild] at h
      cases h
      exact ⟨⟨hk, hpm, hun, hdis⟩, rfl, rfl⟩
    | some xs =>
      simp only [registerChild] at h
      by_cases hsid : sid = p.surface_id
      · rw [if_pos hsid] at h
        cases h
      · rw [if_neg hsid] at h
        cases hpe : findA st.surfaces p.surface_id with
        | none =>
          rw [hpe] at h
          cases h
        | some pe =>
          rw [hpe] at h
          cases h
          have hpw : (setA st.surfaces p.surface_id
                { pe with children := insertChild sid pe.children }).filterMap
                (fun p => p.2.x11_surface.map X11Surface.window_id)
              = st.surfaces.filterMap
                (fun p => p.2.x11_surface.map X11Surface.window_id) :=
            filterMap_setA _ _ hk hpe rfl
          refine ⟨⟨?_, ?_, hun, ?_⟩, hpw, rfl⟩
          · show ((setA st.surfaces p.surface_id _).map Prod.fst).Nodup
            rw [keys_setA]
            exact hk
          · show ((setA st.surfaces p.surface_id _).filterMap _).Nodup
            rw [hpw]
            exact hpm
          · intro w hw2
            show w ∉ (setA st.surfaces p.surface_id _).filterMap _
            rw [hpw]
            exact hdis w hw2

theorem WF_commitRest (sid : Nat) (buf : Option BufferAssignment)
    (x11 : Option X11Surface) (st : WprsState) (hw : WF st)
    (hx11 : ∀ xs, x11 = some xs →
      xs.window_id ∉ pairedWindows st ∧ xs.window_id ∉ unpairedWindows st) :
    WF (commitRest sid buf x11 st).2.1
    ∧ unpairedWindows (commitRest sid buf x11 st).2.1 = unpairedWindows st
    ∧ (∀ xs, x11 = some xs →
        (findA (commitRest sid buf x11 st).2.1.surfaces sid).map
          (fun e => e.x11_surface) = some (some xs)) := by
  obtain ⟨hk, hpm, hun, hdis⟩ := hw
  have hst' : (((getOrCreateSurface st sid).2.surfaces.map Prod.fst).Nodup)
      ∧ pairedWindows (getOrCreateSurface st sid).2 = pairedWindows st
      ∧ unpairedWindows (getOrCreateSurface st sid).2 = unpairedWindows st := by
    cases hfs : findA st.surfaces sid with
    | some e0 =>
      rw [getOrCreateSurface_existing hfs]
      exact ⟨hk, rfl, rfl⟩
    | none =>
      rw [getOrCreateSurface_fresh hfs]
      refine ⟨keys_append_fresh _ hfs hk, ?_, rfl⟩
      show (st.surfaces ++ [(sid, XWaylandSurface.new)]).filterMap _
        = pairedWindows st
      rw [List.filterMap_append,
        show List.filterMap
          (fun p => p.2.x11_surface.map X11Surface.window_id)
          [(sid, XWaylandSurface.new)] = [] from rfl,
        List.append_nil]
      rfl
  have hA : (((commitStateA sid x11 st).surfaces.map Prod.fst).Nodup)
      ∧ (pairedWindows (commitStateA sid x11 st)).Nodup
      ∧ unpairedWindows (commitStateA sid x11 st) = unpairedWindows st
      ∧ (∀ w ∈ unpairedWindows st, w ∉ pairedWindows (commitStateA sid x11 st))
      ∧ (∀ xs, x11 = some xs →
          (commitEntry1 sid x11 st).x11_surface = some xs) := by
    have hkA : ((commitStateA sid x11 st).surfaces.map Prod.fst).Nodup := by
      show ((setA (getOrCreateSurface st sid).2.surfaces sid
        (commitEntry1 sid x11 st)).map Prod.fst).Nodup
      rw [keys_setA]
      exact hst'.1
    cases x11 with
    | none =>
      have hpwA : pairedWindows (commitStateA sid none st)
          = pairedWindows st := by
        show (setA (getOrCreateSurface st sid).2.surfaces sid
          (commitEntry1 sid none st)).filterMap _ = pairedWindows st
        rw [filterMap_setA _ _ hst'.1 (findA_getOrCreateSurface st sid)
          (by rw [commitEntry1_none])]
        exact hst'.2.1
      refine ⟨hkA, ?_, hst'.2.2, ?_, ?_⟩
      · rw [hpwA]
        exact hpm
      · intro w hw2
        rw [hpwA]
        exact hdis w hw2
      · intro xs hxs
        cases hxs
    | some xs =>
      have hxw := hx11 xs rfl
      obtain ⟨A, B, hd0, hd1⟩ := filterMap_setA_decomp
        (fun p => p.2.x11_surface.map X11Surface.window_id)
        (commitEntry1 sid (some xs) st) hst'.1
        (findA_getOrCreateSurface st sid)
      rw [show (Option.map X11Surface.window_id
          ((sid, commitEntry1 sid (some xs) st) :
            Nat × XWaylandSurface).2.x11_surface).toList
          = [xs.window_id] from rfl] at hd1
      have hd0s : pairedWindows st
          = A ++ (Option.map X11Surface.window_id
            ((sid, (getOrCreateSurface st sid).1) :
              Nat × XWaylandSurface).2.x11_surface).toList ++ B := by
        rw [← hst'.2.1]
        exact hd0
      have hmemAB : ∀ y, y ∈ A ∨ y ∈ B → y ∈ pairedWindows st := by
        intro y hy
        rw [hd0s]
        rcases hy with hy | hy
        · exact List.mem_append_left _ (List.mem_append_left _ hy)
        · exact List.mem_append_right _ hy
      have hpwA : pairedWindows (commitStateA sid (some xs) st)
          = A ++ [xs.window_id] ++ B := hd1
      refine ⟨hkA, ?_, hst'.2.2, ?_, ?_⟩
      · rw [hpwA]
        refine nodup_replace_middle (hd0s ▸ hpm) (List.nodup_singleton _) ?_
        intro x hx
        have hxeq : x = xs.window_id := by simpa using hx
        subst hxeq
        constructor
        · intro hmem
          exact hxw.1 (hmemAB xs.window_id (Or.inl hmem))
        · intro hmem
          exact hxw.1 (hmemAB xs.window_id (Or.inr hmem))
      · intro w hw2
        rw [hpwA]
        intro hmem
        rcases mem_replace_middle hmem with hmem2 | hmem2
        · exact hdis w hw2 (hd0s ▸ hmem2)
        · have : w = xs.window_id := by simpa using hmem2
          subst this
          exact hxw.2 hw2
      · intro ys hys
        cases hys
        rfl
  cases hab : applyBuffer sid buf (commitEntry1 sid x11 st)
      (commitStateA sid x11 st).pool with
  | err =>
    rw [commitRest_err hab]
    refine ⟨⟨hA.1, hA.2.1, ?_, ?_⟩, hA.2.2.1, ?_⟩
    · rw [show unpairedWindows (commitStateA sid x11 st)
        = unpairedWindows st from hA.2.2.1]
      exact hun
    · intro w hw2
      refine hA.2.2.2.1 w ?_
      rw [← show unpairedWindows (commitStateA sid x11 st)
        = unpairedWindows st from hA.2.2.1]
      exact hw2
    · intro xs hxs
      rw [findA_commitStateA, Option.map_some', hA.2.2.2.2 xs hxs]
  | ok pr =>
    obtain ⟨e2, evs2⟩ := pr
    rw [commitRest_ok hab]
    have hg2 : (fun p => p.2.x11_surface.map X11Surface.window_id)
        ((sid, e2) : Nat × XWaylandSurface)
        = (fun p => p.2.x11_surface.map X11Surface.window_id)
          ((sid, commitEntry1 sid x11 st) : Nat × XWaylandSurface) := by
      show e2.x11_surface.map X11Surface.window_id = _
      rw [(applyBuffer_ok_fields hab).1]
    have hpwB : (setA (commitStateA sid x11 st).surfaces sid e2).filterMap
        (fun p => p.2.x11_surface.map X11Surface.window_id)
        = pairedWindows (commitStateA sid x11 st) :=
      filterMap_setA _ _ hA.1 (findA_commitStateA sid x11 st) hg2
    refine ⟨⟨?_, ?_, ?_, ?_⟩, hA.2.2.1, ?_⟩
    · show ((setA (commitStateA sid x11 st).surfaces sid e2).map
        Prod.fst).Nodup
      rw [keys_setA]
      exact hA.1
    · show ((setA (commitStateA sid x11 st).surfaces sid e2).filterMap
        _).Nodup
      rw [hpwB]
      exact hA.2.1
    · rw [show unpairedWindows { commitStateA sid x11 st with
        surfaces := setA (commitStateA sid x11 st).surfaces sid e2 }
        = unpairedWindows st from hA.2.2.1]
      exact hun
    · intro w hw2
      show w ∉ (setA (commitStateA sid x11 st).surfaces sid e2).filterMap _
      rw [hpwB]
      refine hA.2.2.2.1 w ?_
      rw [← show unpairedWindows (commitStateA sid x11 st)
        = unpairedWindows st from hA.2.2.1]
      exact hw2
    · intro xs hxs
      have hfind : findA (setA (commitStateA sid x11 st).surfaces sid e2) sid
          = some e2 :=
        findA_setA_self _ (findA_commitStateA _ _ _)
      show (findA (setA (commitStateA sid x11 st).surfaces sid e2) sid).map
        (fun e => e.x11_surface) = some (some xs)
      rw [hfind, Option.map_some', (applyBuffer_ok_fields hab).1,
        hA.2.2.2.2 xs hxs]

/-- Claim C6: under the pairing well-formedness invariant — registry keys
unique, each X11 window id paired with at most one surface entry (and each
entry holding at most one window, by construction of the field), unpaired
window ids distinct, and no window simultaneously paired and unpaired —
every commit preserves the invariant whatever its outcome; and the commit
that claims an unpaired X11 window removes it from the unpaired set in the
same step in which it becomes associated with the surface's entry: after
the commit the claimed window is no longer unpaired and, unless the commit
panicked, it is bound to the surface's registry entry. -/
theorem commit_inner_pairing_invariant (sid : Nat)
    (buf : Option BufferAssignment) (st : WprsState) (hw : WF st) :
    WF (commit_inner sid buf st).2.1
    ∧ (∀ xs, (claimX11 st sid).1 = some xs →
        xs.window_id ∉ unpairedWindows (commit_inner sid buf st).2.1
        ∧ ((commit_inner sid buf st).1 ≠ COutcome.panic →
            (findA (commit_inner sid buf st).2.1.surfaces sid).map
              (fun e => e.x11_surface) = some (some xs))) := by
  have hcl := WF_claimX11 st sid hw
  cases hfp : find_x11_parent (claimX11 st sid).2 (claimX11 st sid).1 with
  | panic =>
    rw [commit_inner_panic_fp hfp]
    refine ⟨hcl.1, ?_⟩
    intro xs hxs
    exact ⟨(hcl.2.2.2 xs hxs).1, fun hnp => absurd rfl hnp⟩
  | ok parent =>
    cases hrc : registerChild sid parent (claimX11 st sid).1
        (claimX11 st sid).2 with
    | panic =>
      rw [commit_inner_panic_rc hfp hrc]
      refine ⟨hcl.1, ?_⟩
      intro xs hxs
      exact ⟨(hcl.2.2.2 xs hxs).1, fun hnp => absurd rfl hnp⟩
    | ok st2 =>
      rw [commit_inner_ok_rc hfp hrc]
      have hreg := WF_registerChild hrc hcl.1
      have hx11 : ∀ xs, (claimX11 st sid).1 = some xs →
          xs.window_id ∉ pairedWindows st2
          ∧ xs.window_id ∉ unpairedWindows st2 := by
        intro xs hxs
        constructor
        · rw [hreg.2.1, hcl.2.1]
          exact hw.2.2.2 _ (hcl.2.2.2 xs hxs).2
        · rw [hreg.2.2]
          exact (hcl.2.2.2 xs hxs).1
      have hcr := WF_commitRest sid buf (claimX11 st sid).1 st2 hreg.1 hx11
      refine ⟨hcr.1, ?_⟩
      intro xs hxs
      constructor
      · rw [hcr.2.1, hreg.2.2]
        exact (hcl.2.2.2 xs hxs).1
      · intro hnp
        exact hcr.2.2 xs hxs

/-- Witness for C6: the C2 state (window 10 unpaired, registry empty) is
well-formed; committing surface 1 claims window 10, and afterwards window
10 is no longer unpaired and is bound to surface 1's entry. -/
theorem commit_inner_pairing_invariant_witness :
    WF (commit_inner 1 none stC2).2.1
    ∧ (10 ∉ unpairedWindows (commit_inner 1 none stC2).2.1
        ∧ (findA (commit_inner 1 none stC2).2.1.surfaces 1).map
            (fun e => e.x11_surface) = some (some wC2)) := by
  have h := commit_inner_pairing_invariant 1 none stC2 (by decide)
  refine ⟨h.1, ?_, ?_⟩
  · exact (h.2 wC2 (by rfl)).1
  · exact (h.2 wC2 (by rfl)).2 (by decide)

end Wprs
